import Mathlib

/-!
Verification of the GhostWalk 802.11 crowd-simulation firmware
(`src/unnamed/part_003`, firmware version 9.4.2).

The C++ source is shallowly embedded: frames are `List Nat` of byte values,
the Arduino `random(n)` / `random(a,b)` PRNG is an explicit stream of draws
(`Rng`), and each builder mirrors the byte-by-byte writes of the source
function it is named after.
-/

namespace GhostWalk

/-- Model of the Arduino PRNG: an infinite stream of raw draws plus a cursor.
`random(n)` returns a value in `[0, n)`; we realise it as `stream idx % n`. -/
structure Rng where
  stream : Nat → Nat
  idx : Nat

/-- `random(n)`: one uniform draw in `[0, n)`. -/
def Rng.next (r : Rng) (n : Nat) : Nat × Rng :=
  (r.stream r.idx % n, ⟨r.stream, r.idx + 1⟩)

/-- `random(a, b)`: one uniform draw in `[a, b)` (Arduino semantics). -/
def Rng.nextRange (r : Rng) (a b : Nat) : Nat × Rng :=
  (a + r.stream r.idx % (b - a), ⟨r.stream, r.idx + 1⟩)

/-- `enum DeviceGen` from the source. -/
inductive DeviceGen
  | GEN_LEGACY
  | GEN_COMMON
  | GEN_MODERN
deriving DecidableEq, Repr, Inhabited

/-- `enum OSPlatform` from the source. -/
inductive OSPlatform
  | PLATFORM_IOS
  | PLATFORM_ANDROID
  | PLATFORM_OTHER
deriving DecidableEq, Repr, Inhabited

/-- `struct VirtualDevice`.  `mac` and `bssid_target` are `uint8_t[6]`
arrays in the source; here they are byte lists whose length-6 wellformedness
is a hypothesis of the frame-level theorems. `preferredSSIDIndex` is a C
`int` (so it can be `-1`). -/
structure VirtualDevice where
  mac : List Nat
  bssid_target : List Nat
  sequenceNumber : Nat
  preferredSSIDIndex : Int
  generation : DeviceGen
  platform : OSPlatform
  hasConnected : Bool
  txPower : Int
deriving DecidableEq, Repr, Inhabited

/-- `vd.mac` and `vd.bssid_target` are `uint8_t[6]` in the source. -/
def WFDevice (vd : VirtualDevice) : Prop :=
  vd.mac.length = 6 ∧ vd.bssid_target.length = 6

instance (vd : VirtualDevice) : Decidable (WFDevice vd) := by
  unfold WFDevice; infer_instance

-- --- SANITIZED PAYLOADS (verbatim from the source tables) ---

def HT_CAPS_PAYLOAD : List Nat :=
  [0xEF, 0x01, 0x1B, 0xFF, 0xFF, 0x00, 0x00, 0x00, 0x00, 0x00, 0x00, 0x00,
   0x00, 0x00, 0x00, 0x01, 0x00, 0x00, 0x00, 0x00, 0x00, 0x00, 0x00, 0x00, 0x00]

def VHT_CAPS_PAYLOAD : List Nat :=
  [0x91, 0x59, 0x82, 0x0F, 0xEA, 0xFF, 0x00, 0x00, 0xEA, 0xFF, 0x00, 0x00]

def HE_CAPS_PAYLOAD : List Nat :=
  [0x23, 0x09, 0x01, 0x00, 0x02, 0x40, 0x00, 0x04, 0x70, 0x0C, 0x89, 0x7F,
   0x03, 0x80, 0x04, 0x00, 0x00, 0x00, 0xAA, 0xAA, 0xAA, 0xAA]

def APPLE_VEND_PAYLOAD : List Nat := [0x00, 0x17, 0xF2, 0x0A, 0x00, 0x01, 0x04]

/-- Note the second byte is decimal `10` in the source literal. -/
def WFA_VEND_PAYLOAD : List Nat := [0x00, 10, 0x18, 0x02, 0x00, 0x00, 0x1C, 0x00, 0x00]

def RSN_PAYLOAD : List Nat :=
  [0x01, 0x00, 0x00, 0x0F, 0xAC, 0x04, 0x01, 0x00, 0x00, 0x0F, 0xAC, 0x04,
   0x01, 0x00, 0x00, 0x0F, 0xAC, 0x02, 0x00, 0x00]

def RATES_LEGACY : List Nat := [0x82, 0x84, 0x8b, 0x96]

def RATES_MODERN_2G : List Nat := [0x02, 0x04, 0x0b, 0x16, 0x0c, 0x12, 0x18, 0x24]

def RATES_5G : List Nat := [0x0c, 0x12, 0x18, 0x24, 0x30, 0x48, 0x60, 0x6c]

/-- Apple probe Extended Capabilities (`extCap` local array in `buildProbePacket`). -/
def EXT_CAP_APPLE : List Nat := [0x00, 0x00, 0x08, 0x00, 0x00, 0x00, 0x00, 0x40]

/-- Non-Apple probe Extended Capabilities (`extCapAnd` local array). -/
def EXT_CAP_ANDROID : List Nat := [0x04, 0x00, 0x08, 0x00, 0x00, 0x00, 0x00, 0x40]

-- --- EXPANDED VENDOR OUIS ---

def OUI_APPLE : List (List Nat) :=
  [[0xFC, 0xFC, 0x48], [0xBC, 0xD0, 0x74], [0xAC, 0x1F, 0x0F], [0xF0, 0xD4, 0x15],
   [0xF0, 0x98, 0x9D], [0x34, 0x14, 0x5F], [0xDC, 0xA9, 0x04], [0x28, 0xCF, 0xE9],
   [0xAC, 0xBC, 0x32], [0xE4, 0xCE, 0x8F], [0xBC, 0x9F, 0xEF], [0x48, 0x4B, 0xAA],
   [0x88, 0x66, 0x5A], [0x1C, 0x91, 0x48], [0x60, 0xFA, 0xCD]]

def OUI_SAMSUNG : List (List Nat) :=
  [[0x24, 0xFC, 0xEE], [0x8C, 0x96, 0xD4], [0x5C, 0xCB, 0x99], [0x34, 0x21, 0x09],
   [0x84, 0x25, 0xDB], [0x00, 0xE0, 0x64], [0x80, 0xEA, 0x96], [0x38, 0x01, 0x95],
   [0xB0, 0xC0, 0x90], [0xFC, 0xC2, 0xDE]]

def OUI_LEGACY_IOT : List (List Nat) :=
  [[0x00, 0x14, 0x38], [0x00, 0x0D, 0x93], [0x00, 0x1F, 0x32], [0x00, 0x16, 0x35],
   [0x00, 0x04, 0xBD], [0x00, 0x17, 0xE0], [0x00, 0x1B, 0x7A]]

def OUI_MODERN_GEN : List (List Nat) :=
  [[0x3C, 0x5C, 0x48], [0x8C, 0xF5, 0xA3], [0x74, 0xC6, 0x3B], [0xFC, 0xA6, 0x67],
   [0xE8, 0x6A, 0x64], [0x60, 0x55, 0xF9], [0xDC, 0x8C, 0x90], [0x40, 0x9F, 0x38]]

def POWER_LEVELS : List Int := [72, 74, 76, 78, 80, 82]

-- --- CONFIGURATION CONSTANTS ---

def MESH_DECAY_TIMEOUT_MS : Nat := 600000
def MESH_ACTIVE_INTERVAL_MS : Nat := 600000
def MESH_STANDBY_INTERVAL_MS : Nat := 20000
def MAX_MESH_QUEUE_SIZE : Nat := 40
def MAX_SSIDS_TO_LEARN : Nat := 200
def CYCLE_CAP_BUFFER : Nat := 5
def LEARN_INTERVAL_MS : Nat := 60000 / 25
def CYCLE_INTERVAL_MS : Nat := 10000
def NUM_SEED_SSIDS : Nat := 30

-- --- FRAME ASSEMBLY PRIMITIVES ---

/-- The two Sequence Control bytes written by every builder:
`buf[22] = seq & 0xFF; buf[23] = (seq >> 8) & 0xF0;`. -/
def seqBytes (seq : Nat) : List Nat :=
  [seq &&& 0xFF, (seq >>> 8) &&& 0xF0]

/-- The 24-byte 3-address MAC header every builder starts with:
Frame Control + Duration (4 bytes), Addr1, Addr2, Addr3, Sequence Control. -/
def macHeader (fc a1 a2 a3 : List Nat) (seq : Nat) : List Nat :=
  fc ++ a1 ++ a2 ++ a3 ++ seqBytes seq

/-- One Information Element as written by `addTag`: tag byte, length byte,
payload.  The buffer is `uint8_t`, so both header bytes are reduced mod 256. -/
def encodeTag (id : Nat) (data : List Nat) : List Nat :=
  id % 256 :: data.length % 256 :: data

/-- `addTag(buf, ptr, id, data, len)` with `len = sizeof data`, as called
everywhere in the source: appends one IE to the buffer. -/
def addTag (buf : List Nat) (id : Nat) (data : List Nat) : List Nat :=
  buf ++ encodeTag id data

/-- Fuel-indexed IE scanner over a frame body: reads tag, length, payload,
repeatedly.  The fuel (the byte count) makes it structurally recursive. -/
def scanIEsAux : Nat → List Nat → List (Nat × List Nat)
  | 0, _ => []
  | _, [] => []
  | _, [_] => []
  | fuel + 1, t :: l :: rest => (t, rest.take l) :: scanIEsAux fuel (rest.drop l)

/-- Parse a frame body (everything after the fixed fields) into its list of
`(tag, payload)` Information Elements. -/
def scanIEs (l : List Nat) : List (Nat × List Nat) :=
  scanIEsAux l.length l

/-- Encode a list of `(tag, payload)` IEs back to bytes. -/
def encodeIEs : List (Nat × List Nat) → List Nat
  | [] => []
  | (t, p) :: rest => encodeTag t p ++ encodeIEs rest

-- --- RANDOM BYTE HELPERS ---

/-- `n` consecutive `random(97, 122)` draws (lowercase filler characters,
used for hidden-network style SSIDs). -/
def randLowercase : Nat → Rng → List Nat × Rng
  | 0, rng => ([], rng)
  | n + 1, rng =>
    let (c, rng) := rng.nextRange 97 122
    let (cs, rng) := randLowercase n rng
    (c :: cs, rng)

/-- `n` consecutive `random(0, 256)` draws (the random data payload). -/
def randBytes : Nat → Rng → List Nat × Rng
  | 0, rng => ([], rng)
  | n + 1, rng =>
    let (b, rng) := rng.next 256
    let (bs, rng) := randBytes n rng
    (b :: bs, rng)

-- --- PACKET BUILDERS (part_003 lines 1432-1598) ---

/-- The Supported Rates payload chosen by both `buildProbePacket` and
`buildAssocRequestPacket` (identical if/else ladder in the source). -/
def ratesPayload (is5G : Bool) (gen : DeviceGen) : List Nat :=
  if is5G then RATES_5G
  else if gen = .GEN_LEGACY then RATES_LEGACY
  else RATES_MODERN_2G

/-- The SSID payload chosen by `buildProbePacket` (lines 1504-1525).
Returns `[]` for a wildcard probe; the wildcard element `00 00` and the
empty-SSID element coincide byte-for-byte.
The source guard `p != -1 && p < activeSSIDs.size()` compares a C `int`
against `size_t`; after the unsigned promotion it is equivalent to
`0 ≤ p ∧ p < size`, which is how it is rendered here. -/
def probeSSID (ssids : List (List Nat)) (vd : VirtualDevice) (rng : Rng) :
    List Nat × Rng :=
  let (useWildcard, rng) :=
    if vd.generation = .GEN_LEGACY ∨ vd.platform = .PLATFORM_OTHER then
      let (r, rng) := rng.next 100
      (decide (r < 40), rng)
    else (false, rng)
  if useWildcard then ([], rng)
  else if 0 ≤ vd.preferredSSIDIndex ∧ vd.preferredSSIDIndex < (ssids.length : Int)
      ∧ ssids ≠ [] then
    (ssids.getD vd.preferredSSIDIndex.toNat [], rng)
  else if ssids ≠ [] then
    let (i, rng) := rng.next ssids.length
    (ssids.getD i [], rng)
  else
    randLowercase 7 rng

/-- `buildProbePacket(buf, vd, channel)` (lines 1495-1565); the returned list
is `buf[0..ptr)`. -/
def buildProbePacket (is5G : Bool) (ssids : List (List Nat)) (vd : VirtualDevice)
    (channel : Nat) (rng : Rng) : List Nat × Rng :=
  let header := macHeader [0x40, 0x00, 0x00, 0x00] (List.replicate 6 0xFF) vd.mac
      (List.replicate 6 0xFF) vd.sequenceNumber
  let (ssid, rng) := probeSSID ssids vd rng
  let isApple := vd.platform = .PLATFORM_IOS
  (header
    ++ encodeTag 0x00 ssid
    ++ encodeTag 0x01 (ratesPayload is5G vd.generation)
    ++ encodeTag 0x03 [channel % 256]
    ++ (if isApple then encodeTag 127 EXT_CAP_APPLE else [])
    ++ encodeTag 45 HT_CAPS_PAYLOAD
    ++ (if vd.generation ≠ .GEN_LEGACY then encodeTag 191 VHT_CAPS_PAYLOAD else [])
    ++ (if ¬isApple ∧ vd.generation ≠ .GEN_LEGACY then encodeTag 127 EXT_CAP_ANDROID else [])
    ++ (if vd.generation = .GEN_MODERN then encodeTag 255 (35 :: HE_CAPS_PAYLOAD) else [])
    ++ encodeTag 221 WFA_VEND_PAYLOAD
    ++ (if isApple then encodeTag 221 APPLE_VEND_PAYLOAD else []), rng)

/-- `buildAuthPacket(buf, vd)` (lines 1432-1444). -/
def buildAuthPacket (vd : VirtualDevice) : List Nat :=
  macHeader [0xB0, 0x00, 0x00, 0x01] vd.bssid_target vd.mac vd.bssid_target
    vd.sequenceNumber
  ++ [0x00, 0x00, 0x01, 0x00, 0x00, 0x00]

/-- `buildAssocRequestPacket(buf, vd, ssid)` (lines 1446-1479). -/
def buildAssocRequestPacket (is5G : Bool) (vd : VirtualDevice) (ssid : List Nat) :
    List Nat :=
  macHeader [0x00, 0x00, 0x00, 0x00] vd.bssid_target vd.mac vd.bssid_target
    vd.sequenceNumber
  ++ [0x31, 0x04, 0x0A, 0x00]
  ++ encodeTag 0x00 ssid
  ++ encodeTag 0x01 (ratesPayload is5G vd.generation)
  ++ encodeTag 48 RSN_PAYLOAD
  ++ encodeTag 45 HT_CAPS_PAYLOAD
  ++ (if vd.generation ≠ .GEN_LEGACY then encodeTag 191 VHT_CAPS_PAYLOAD else [])
  ++ (if vd.generation = .GEN_MODERN then encodeTag 255 (35 :: HE_CAPS_PAYLOAD) else [])

/-- `buildEncryptedDataPacket(buf, vd)` (lines 1481-1493). -/
def buildEncryptedDataPacket (vd : VirtualDevice) (rng : Rng) : List Nat × Rng :=
  let header := macHeader [0x88, 0x41, 0x00, 0x00] vd.bssid_target vd.mac
      vd.bssid_target vd.sequenceNumber
  let (ccmp0, rng) := rng.nextRange 0 8
  let (payloadLen, rng) := rng.nextRange 64 512
  let (payload, rng) := randBytes payloadLen rng
  (header ++ [ccmp0, 0x00] ++ payload, rng)

/-- The HT Operation payload of `buildBeaconPacket` (first byte = channel,
then 21 zero bytes). -/
def htOpPayload (channel : Nat) : List Nat :=
  channel % 256 :: List.replicate 21 0x00

/-- `buildBeaconPacket(buf, mac, ssid, channel, seqNum)` (lines 1567-1598). -/
def buildBeaconPacket (is5G : Bool) (mac : List Nat) (ssid : List Nat)
    (channel : Nat) (seqNum : Nat) : List Nat :=
  macHeader [0x80, 0x00, 0x00, 0x00] (List.replicate 6 0xFF) mac mac seqNum
  ++ List.replicate 8 0x00
  ++ [0x64, 0x00]
  ++ [0x31, 0x04]
  ++ encodeTag 0x00 ssid
  ++ (if is5G then encodeTag 0x01 RATES_5G else encodeTag 0x01 RATES_LEGACY)
  ++ [0x03, 0x01, channel % 256]
  ++ encodeTag 61 (htOpPayload channel)
  ++ (if is5G then encodeTag 192 [0x00, 0x00, 0x00, 0x00, 0x00] else [])

/-- One noise probe of `fillSilenceWithNoise` (lines 1390-1423): random
locally administered MAC, random sequence number, wildcard or 5-11 char
hidden-network SSID, minimal rates. -/
def buildNoisePacket (is5G : Bool) (rng : Rng) : List Nat × Rng :=
  let (m0, rng) := rng.next 256
  let (m1, rng) := rng.next 256
  let (m2, rng) := rng.next 256
  let (m3, rng) := rng.next 256
  let (m4, rng) := rng.next 256
  let (m5, rng) := rng.next 256
  let noiseMac := [(m0 &&& 0xFE) ||| 0x02, m1, m2, m3, m4, m5]
  let (seq, rng) := rng.next 4096
  let header := macHeader [0x40, 0x00, 0x00, 0x00] (List.replicate 6 0xFF) noiseMac
      (List.replicate 6 0xFF) seq
  let (roll, rng) := rng.next 100
  let (ssidElem, rng) :=
    if roll < 40 then
      let (noiseLen, rng) := rng.nextRange 5 12
      let (cs, rng) := randLowercase noiseLen rng
      (encodeTag 0x00 cs, rng)
    else ([0x00, 0x00], rng)
  (header ++ ssidElem
    ++ (if is5G then encodeTag 0x01 RATES_5G else encodeTag 0x01 [0x82, 0x84, 0x8b, 0x96]),
   rng)

-- --- STRICT IDENTITY GENERATOR (lines 1267-1328) ---

/-- `generateWeightedIdentity(vd)`: one uniform roll in `[0,100)` selects the
vendor class by cumulative thresholds 40 / 75 / 82, then per-class rolls pick
OUI, generation, power, private-MAC use, MAC suffix, target BSSID, initial
sequence number and preferred SSID. -/
def generateWeightedIdentity (ssids : List (List Nat)) (rng : Rng) :
    VirtualDevice × Rng :=
  let (roll, rng) := rng.next 100
  let (selectedOUI, gen, plat, rng) :=
    if roll < 40 then -- Apple
      let (i, rng) := rng.next 15
      let (g, rng) := rng.next 100
      (OUI_APPLE.getD i [],
       if g < 80 then DeviceGen.GEN_COMMON else DeviceGen.GEN_MODERN,
       OSPlatform.PLATFORM_IOS, rng)
    else if roll < 75 then -- Samsung
      let (i, rng) := rng.next 10
      let (g, rng) := rng.next 100
      (OUI_SAMSUNG.getD i [],
       if g < 70 then DeviceGen.GEN_COMMON else DeviceGen.GEN_MODERN,
       OSPlatform.PLATFORM_ANDROID, rng)
    else if roll < 82 then -- IoT / Legacy
      let (i, rng) := rng.next 7
      (OUI_LEGACY_IOT.getD i [], DeviceGen.GEN_LEGACY, OSPlatform.PLATFORM_OTHER, rng)
    else -- Modern Generic
      let (i, rng) := rng.next 8
      (OUI_MODERN_GEN.getD i [], DeviceGen.GEN_MODERN, OSPlatform.PLATFORM_ANDROID, rng)
  let (pIdx, rng) := rng.next 6
  let txPower := POWER_LEVELS.getD pIdx 0
  -- `(gen == GEN_MODERN && random(100) < 85) || (gen == GEN_COMMON && random(100) < 50)`
  -- with C++ short-circuit evaluation: at most one sub-roll is drawn.
  let (usePrivate, rng) :=
    if gen = .GEN_MODERN then
      let (r, rng) := rng.next 100
      (decide (r < 85), rng)
    else if gen = .GEN_COMMON then
      let (r, rng) := rng.next 100
      (decide (r < 50), rng)
    else (false, rng)
  let (macHead, rng) :=
    if usePrivate then
      let (b0, rng) := rng.next 256
      let (b1, rng) := rng.next 256
      let (b2, rng) := rng.next 256
      ([(b0 &&& 0xFE) ||| 0x02, b1, b2], rng)
    else (selectedOUI, rng)
  let (m3, rng) := rng.next 256
  let (m4, rng) := rng.next 256
  let (m5, rng) := rng.next 256
  let (t3, rng) := rng.next 256
  let (t4, rng) := rng.next 256
  let (t5, rng) := rng.next 256
  let (seq, rng) := rng.next 4096
  let probeChance := if gen = .GEN_LEGACY then 90 else 60
  let (p, rng) := rng.next 100
  let (preferred, rng) :=
    if p < probeChance ∧ ssids ≠ [] then
      let (i, rng) := rng.next ssids.length
      ((i : Int), rng)
    else ((-1 : Int), rng)
  ({ mac := macHead ++ [m3, m4, m5],
     bssid_target := [0x00, 0x11, 0x32, t3, t4, t5],
     sequenceNumber := seq,
     preferredSSIDIndex := preferred,
     generation := gen,
     platform := plat,
     hasConnected := false,
     txPower := txPower }, rng)

-- --- PASSIVE SCANNER (lines 1210-1230) ---

/-- `snifferCallback`: for a management frame starting `0x40` (probe request)
with IE tag 0 at offset 24, the SSID is enqueued only when its length byte
`len` satisfies `len > 1 && len < 32`; result is the enqueued SSID bytes. -/
def snifferCallback (enablePassiveScan : Bool) (isMgmt : Bool) (frame : List Nat) :
    Option (List Nat) :=
  if ¬enablePassiveScan then none
  else if ¬isMgmt then none
  else if frame.getD 0 0 ≠ 0x40 then none
  else if frame.getD 24 0 = 0x00 then
    let len := frame.getD 25 0
    if 1 < len ∧ len < 32 then some ((frame.drop 26).take len)
    else none
  else none

-- --- MESH SNIFFER FILTER (lines 1233-1264) ---

/-- `meshSnifferCallback` acceptance predicate: management Action frame
(`0xD0`), signal length in `[40, 1024]`, Vendor-Specific category 127 at
offset 24 and the Espressif OUI `18 FE 34` at offsets 25-27. -/
def meshSnifferAccepts (enableRelay : Bool) (isMgmt : Bool) (frame : List Nat)
    (sigLen : Nat) : Bool :=
  enableRelay && isMgmt && (frame.getD 0 0 == 0xD0)
    && decide (40 ≤ sigLen) && decide (sigLen ≤ 1024)
    && (frame.getD 24 0 == 127) && (frame.getD 25 0 == 0x18)
    && (frame.getD 26 0 == 0xFE) && (frame.getD 27 0 == 0x34)

-- --- RESOURCE GOVERNOR (lines 1158-1185) ---

/-- Governor-visible pool state. -/
structure GovState where
  lowMemoryMode : Bool
  activeSwarm : List VirtualDevice
  dormantSwarm : List VirtualDevice
deriving Repr

/-- `manageResources()`: under 25000 free bytes set the low-memory flag and
drop 30% of the dormant pool from the front; additionally under 15000 drop
15% of the active pool from the front; at or above 25000 clear the flag.
`(int)(size * 0.30)` is `⌊size * 30 / 100⌋` for every realistic pool size. -/
def manageResources (freeHeap : Nat) (st : GovState) : GovState :=
  if freeHeap < 25000 then
    let st1 : GovState := { st with lowMemoryMode := true }
    let st2 : GovState :=
      if st1.dormantSwarm ≠ [] then
        let dropCount := st1.dormantSwarm.length * 30 / 100
        if dropCount > 0 then { st1 with dormantSwarm := st1.dormantSwarm.drop dropCount }
        else st1
      else st1
    if freeHeap < 15000 ∧ st2.activeSwarm ≠ [] then
      let dropCount := st2.activeSwarm.length * 15 / 100
      if dropCount > 0 then { st2 with activeSwarm := st2.activeSwarm.drop dropCount }
      else st2
    else st2
  else { st with lowMemoryMode := false }

-- --- LEARNED SSID INTAKE (loop lines 1849-1881) ---

/-- One drained `SniffedSSID` offered to the store, exactly as in the loop:
gated on `ENABLE_SSID_REPLICATION && !lowMemoryMode`, deduplicated, grown up
to `MAX_SSIDS_TO_LEARN + CYCLE_CAP_BUFFER`, then time-gated cycling of a
random non-seed slot.  Returns the new store, last-learn time, and rng. -/
def offerSSID (enableReplication lowMemoryMode : Bool) (ssids : List (List Nat))
    (newSSID : List Nat) (now lastLearn : Nat) (rng : Rng) :
    List (List Nat) × Nat × Rng :=
  if enableReplication ∧ ¬lowMemoryMode then
    if newSSID ∈ ssids then (ssids, lastLearn, rng)
    else
      let requiredInterval :=
        if ssids.length ≥ MAX_SSIDS_TO_LEARN then CYCLE_INTERVAL_MS else LEARN_INTERVAL_MS
      if ssids.length < MAX_SSIDS_TO_LEARN + CYCLE_CAP_BUFFER then
        (ssids ++ [newSSID], now, rng)
      else if now - lastLearn ≥ requiredInterval then
        if ssids.length > NUM_SEED_SSIDS then
          let (cycleIdx, rng) := rng.nextRange NUM_SEED_SSIDS ssids.length
          (ssids.set cycleIdx newSSID, now, rng)
        else (ssids, lastLearn, rng)
      else (ssids, lastLearn, rng)
  else (ssids, lastLearn, rng)

-- --- MESH RELAY STATE MACHINE (lines 1727-1805, 1894-1923) ---

structure MeshState where
  isMeshDetected : Bool
  meshCache : List (List Nat × Nat)
  recentSenders : List (List Nat × Nat)
  lastMeshPacketTime : Nat
  lastMeshCheckTime : Nat
deriving Repr

/-- Sender-table maintenance inside `checkAndListenForMesh`: refresh a known
sender's `lastSeen`, else append a new entry. -/
def updateSenders (senders : List (List Nat × Nat)) (mac : List Nat) (now : Nat) :
    List (List Nat × Nat) :=
  if mac ∈ senders.map Prod.fst then
    senders.map fun s => if s.1 = mac then (s.1, now) else s
  else senders ++ [(mac, now)]

/-- Processing of one received `MeshPacket` inside the listen window
(lines 1741-1795): self-echo suppression, sender tracking, byte-exact
deduplication with `lastSeen` refresh, capacity-40 FIFO insert, and setting
`isMeshDetected` / `lastMeshPacketTime`. -/
def processMeshPacket (localMac : List Nat) (now : Nat) (st : MeshState)
    (mp : List Nat) : MeshState :=
  if 16 ≤ mp.length ∧ (mp.drop 10).take 6 = localMac then st
  else
    let st :=
      if 16 ≤ mp.length then
        { st with recentSenders := updateSenders st.recentSenders ((mp.drop 10).take 6) now }
      else st
    let st :=
      if mp ∈ st.meshCache.map Prod.fst then
        { st with meshCache := st.meshCache.map fun c => if c.1 = mp then (c.1, now) else c }
      else
        let cache :=
          if MAX_MESH_QUEUE_SIZE ≤ st.meshCache.length then st.meshCache.drop 1
          else st.meshCache
        { st with meshCache := cache ++ [(mp, now)] }
    { st with isMeshDetected := true, lastMeshPacketTime := now }

/-- Whether one queued packet sets `isMeshDetected`: everything except a
self-echo (length ≥ 16 with our own source address) is accepted. -/
def meshPacketAccepted (localMac : List Nat) (mp : List Nat) : Bool :=
  ¬(16 ≤ mp.length ∧ (mp.drop 10).take 6 = localMac)

/-- The whole listen window of `checkAndListenForMesh`, draining the queued
packets in order. -/
def meshListen (localMac : List Nat) (now : Nat) (st : MeshState)
    (pkts : List (List Nat)) : MeshState :=
  pkts.foldl (processMeshPacket localMac now) st

/-- The decay check at the top of `loop()` (lines 1896-1901). -/
def meshDecayStep (enableRelay : Bool) (now : Nat) (st : MeshState) : MeshState :=
  if enableRelay ∧ st.isMeshDetected ∧ now - st.lastMeshPacketTime > MESH_DECAY_TIMEOUT_MS then
    { st with isMeshDetected := false, meshCache := [] }
  else st

/-- One scheduler iteration's mesh activity (lines 1894-1923): decay first,
then — when the dynamic interval has elapsed — a listen window over the
packets `pkts` the radio delivered during that window. -/
def meshIterStep (enableRelay : Bool) (localMac : List Nat) (now : Nat)
    (pkts : List (List Nat)) (st : MeshState) : MeshState :=
  let st := meshDecayStep enableRelay now st
  if enableRelay then
    let requiredInterval :=
      if st.isMeshDetected then MESH_ACTIVE_INTERVAL_MS else MESH_STANDBY_INTERVAL_MS
    if now - st.lastMeshCheckTime > requiredInterval then
      let st := meshListen localMac now st pkts
      { st with lastMeshCheckTime := now }
    else st
  else st

-- --- NOISE GENERATOR (lines 1383-1428) ---

/-- The noise emission loop of `fillSilenceWithNoise`.  The loop is bounded
by wall-clock time in the source, so the iteration count is an environment
input here. -/
def noiseLoop (is5G : Bool) : Nat → Rng → List (List Nat) × Rng
  | 0, rng => ([], rng)
  | k + 1, rng =>
    let (p, rng) := buildNoisePacket is5G rng
    let (ps, rng) := noiseLoop is5G k rng
    (p :: ps, rng)

/-- `fillSilenceWithNoise(durationMs)`: one `random(0, 6)` draw for the
noise power floor, then time-bounded noise probes — `iters` of them, the
count supplied by the timing environment. -/
def fillSilence (is5G : Bool) (iters : Nat) (rng : Rng) : List (List Nat) × Rng :=
  let (_, rng) := rng.nextRange 0 6
  noiseLoop is5G iters rng

-- --- INTERACTION SIMULATION (loop lines 1986-2011) ---

/-- The data-frame burst of the interaction simulation (`for b < burstCount`):
data packet, sequence-number bump, noise fill.  `env` gives the
time-determined noise iteration count of each fill, indexed from `envIdx`. -/
def dataBurst (is5G : Bool) : Nat → VirtualDevice → Rng → (Nat → Nat) → Nat →
    List (List Nat) × VirtualDevice × Rng
  | 0, vd, rng, _, _ => ([], vd, rng)
  | c + 1, vd, rng, env, envIdx =>
    let (pkt, rng) := buildEncryptedDataPacket vd rng
    let vd' := { vd with sequenceNumber := (vd.sequenceNumber + 1) % 4096 }
    let (_, rng) := rng.nextRange (5 * 75 / 100) (20 * 50 / 100)
    let (_, rng) := fillSilence is5G (env envIdx) rng
    let (pkts, vdf, rngf) := dataBurst is5G c vd' rng env (envIdx + 1)
    (pkt :: pkts, vdf, rngf)

/-- The interaction simulation branch of the per-packet loop: one Auth, one
Association Request toward `targetSSID`, then a 3..11 data-frame burst, each
frame followed by a `+1 mod 4096` sequence bump and a noise fill; at the end
`interactionCount` is incremented.  Returns the device frames in TX order,
the final device state, the rng, and the new interaction counter. -/
def interactionSim (is5G : Bool) (vd : VirtualDevice) (targetSSID : List Nat)
    (rng : Rng) (env : Nat → Nat) (interactionCount : Nat) :
    List (List Nat) × VirtualDevice × Rng × Nat :=
  let vd0 := { vd with hasConnected := true }
  let auth := buildAuthPacket vd0
  let vd1 := { vd0 with sequenceNumber := (vd0.sequenceNumber + 1) % 4096 }
  let (_, rng) := rng.nextRange (10 * 75 / 100) (40 * 50 / 100)
  let (_, rng) := fillSilence is5G (env 0) rng
  let assoc := buildAssocRequestPacket is5G vd1 targetSSID
  let vd2 := { vd1 with sequenceNumber := (vd1.sequenceNumber + 1) % 4096 }
  let (_, rng) := rng.nextRange (30 * 75 / 100) (100 * 50 / 100)
  let (_, rng) := fillSilence is5G (env 1) rng
  let (burstCount, rng) := rng.nextRange 3 12
  let (dataPkts, vdf, rngf) := dataBurst is5G burstCount vd2 rng env 2
  (auth :: assoc :: dataPkts, vdf, rngf, interactionCount + 1)

-- --- PER-PACKET SLOT OF THE SCHEDULER (loop lines 1976-2024) ---

/-- The "GHOST WALK PRIMARY SIMULATION" block of one packet slot: pick a
random active device; on a 5 GHz hop a Legacy pick is skipped outright
(`continue`) with no device frame built; otherwise either the rare
interaction simulation or a probe request with the sequence-gap step.
Returns the device frames transmitted, the updated swarm, the interaction
counter, and the rng. -/
def ghostSlot (enableInteraction enableSeqGaps is5G : Bool)
    (ssids : List (List Nat)) (swarm : List VirtualDevice) (channel : Nat)
    (rng : Rng) (env : Nat → Nat) (interactionCount : Nat) :
    List (List Nat) × List VirtualDevice × Nat × Rng :=
  if swarm = [] then ([], swarm, interactionCount, rng)
  else
    let (swarmIdx, rng) := rng.next swarm.length
    let vd := swarm.getD swarmIdx default
    if is5G ∧ vd.generation = .GEN_LEGACY then ([], swarm, interactionCount, rng)
    else
      let (iroll, rng) :=
        if enableInteraction then rng.next 100 else (100, rng)
      if enableInteraction ∧ iroll < 2 ∧ 0 ≤ vd.preferredSSIDIndex
          ∧ vd.preferredSSIDIndex < (ssids.length : Int) then
        let targetSSID := ssids.getD vd.preferredSSIDIndex.toNat []
        let (frames, vd', rng, cnt) :=
          interactionSim is5G vd targetSSID rng env interactionCount
        (frames, swarm.set swarmIdx vd', cnt, rng)
      else
        let (probe, rng) := buildProbePacket is5G ssids vd channel rng
        let (gapRoll, rng) :=
          if enableSeqGaps then rng.next 100 else (100, rng)
        let (step, rng) :=
          if enableSeqGaps ∧ gapRoll < 20 then rng.nextRange 2 8 else (1, rng)
        let vd' := { vd with sequenceNumber := (vd.sequenceNumber + step) % 4096 }
        ([probe], swarm.set swarmIdx vd', interactionCount, rng)

-- --- SCANNER LEMMAS ---

theorem scanIEsAux_eq_of_le (m : Nat) : ∀ (n : Nat) (l : List Nat),
    l.length ≤ m → l.length ≤ n → scanIEsAux m l = scanIEsAux n l := by
  induction m with
  | zero =>
    intro n l hm _
    have hl : l = [] := List.eq_nil_of_length_eq_zero (Nat.le_zero.mp hm)
    subst hl
    cases n <;> rfl
  | succ m ih =>
    intro n l hm hn
    match l with
    | [] => cases n <;> rfl
    | [a] => cases n <;> rfl
    | a :: b :: rest =>
      match n with
      | 0 => simp at hn
      | n + 1 =>
        simp only [scanIEsAux]
        have hr : (rest.drop b).length ≤ rest.length := by
          rw [List.length_drop]; omega
        have hm' : (rest.drop b).length ≤ m := by
          simp only [List.length_cons] at hm; omega
        have hn' : (rest.drop b).length ≤ n := by
          simp only [List.length_cons] at hn; omega
        rw [ih n (rest.drop b) hm' hn']

theorem scanIEs_encodeTag (t : Nat) (p : List Nat) (ht : t < 256)
    (hp : p.length < 256) (rest : List Nat) :
    scanIEs (encodeTag t p ++ rest) = (t, p) :: scanIEs rest := by
  have hmod : p.length % 256 = p.length := Nat.mod_eq_of_lt hp
  have htmod : t % 256 = t := Nat.mod_eq_of_lt ht
  show scanIEsAux _ _ = _
  simp only [encodeTag, List.cons_append, List.length_cons, List.length_append,
    hmod, htmod]
  rw [scanIEsAux]
  rw [List.take_left, List.drop_left]
  refine congrArg _ ?_
  exact scanIEsAux_eq_of_le _ _ _ (by omega) (le_refl _)

theorem scanIEs_nil : scanIEs [] = [] := rfl

-- Specialised single-step scanner lemmas, one per canonical payload, so the
-- frame characterisations can be computed by rewriting.

theorem scanIEs_ssid (s : List Nat) (hs : s.length < 256) (rest : List Nat) :
    scanIEs (encodeTag 0x00 s ++ rest) = (0x00, s) :: scanIEs rest :=
  scanIEs_encodeTag _ _ (by norm_num) hs rest

theorem scanIEs_rates (is5G : Bool) (gen : DeviceGen) (rest : List Nat) :
    scanIEs (encodeTag 0x01 (ratesPayload is5G gen) ++ rest) =
      (0x01, ratesPayload is5G gen) :: scanIEs rest := by
  refine scanIEs_encodeTag _ _ (by norm_num) ?_ rest
  unfold ratesPayload
  split_ifs <;> decide

theorem scanIEs_ds (channel : Nat) (rest : List Nat) :
    scanIEs (encodeTag 0x03 [channel % 256] ++ rest) =
      (0x03, [channel % 256]) :: scanIEs rest :=
  scanIEs_encodeTag _ _ (by norm_num) (by simp) rest

theorem scanIEs_extCapApple (rest : List Nat) :
    scanIEs (encodeTag 127 EXT_CAP_APPLE ++ rest) =
      (127, EXT_CAP_APPLE) :: scanIEs rest :=
  scanIEs_encodeTag _ _ (by norm_num) (by decide) rest

theorem scanIEs_extCapAndroid (rest : List Nat) :
    scanIEs (encodeTag 127 EXT_CAP_ANDROID ++ rest) =
      (127, EXT_CAP_ANDROID) :: scanIEs rest :=
  scanIEs_encodeTag _ _ (by norm_num) (by decide) rest

theorem scanIEs_ht (rest : List Nat) :
    scanIEs (encodeTag 45 HT_CAPS_PAYLOAD ++ rest) =
      (45, HT_CAPS_PAYLOAD) :: scanIEs rest :=
  scanIEs_encodeTag _ _ (by norm_num) (by decide) rest

theorem scanIEs_vht (rest : List Nat) :
    scanIEs (encodeTag 191 VHT_CAPS_PAYLOAD ++ rest) =
      (191, VHT_CAPS_PAYLOAD) :: scanIEs rest :=
  scanIEs_encodeTag _ _ (by norm_num) (by decide) rest

theorem scanIEs_he (rest : List Nat) :
    scanIEs (encodeTag 255 (35 :: HE_CAPS_PAYLOAD) ++ rest) =
      (255, 35 :: HE_CAPS_PAYLOAD) :: scanIEs rest :=
  scanIEs_encodeTag _ _ (by norm_num) (by decide) rest

theorem scanIEs_wfa (rest : List Nat) :
    scanIEs (encodeTag 221 WFA_VEND_PAYLOAD ++ rest) =
      (221, WFA_VEND_PAYLOAD) :: scanIEs rest :=
  scanIEs_encodeTag _ _ (by norm_num) (by decide) rest

theorem scanIEs_appleVend (rest : List Nat) :
    scanIEs (encodeTag 221 APPLE_VEND_PAYLOAD ++ rest) =
      (221, APPLE_VEND_PAYLOAD) :: scanIEs rest :=
  scanIEs_encodeTag _ _ (by norm_num) (by decide) rest

theorem scanIEs_rsn (rest : List Nat) :
    scanIEs (encodeTag 48 RSN_PAYLOAD ++ rest) =
      (48, RSN_PAYLOAD) :: scanIEs rest :=
  scanIEs_encodeTag _ _ (by norm_num) (by decide) rest

-- --- LENGTH HELPERS ---

theorem randLowercase_length (n : Nat) (rng : Rng) :
    (randLowercase n rng).1.length = n := by
  induction n generalizing rng with
  | zero => rfl
  | succ n ih => simp [randLowercase, ih]

theorem randBytes_length (n : Nat) (rng : Rng) :
    (randBytes n rng).1.length = n := by
  induction n generalizing rng with
  | zero => rfl
  | succ n ih => simp [randBytes, ih]

theorem getD_length_le (l : List (List Nat)) (i : Nat)
    (h : ∀ s ∈ l, s.length ≤ 32) : (l.getD i []).length ≤ 32 := by
  induction l generalizing i with
  | nil => simp [List.getD]
  | cons a t ih =>
    cases i with
    | zero => exact h a (by simp)
    | succ i =>
      exact ih i (fun s hs => h s (by simp [hs]))

theorem probeSSID_length_le (ssids : List (List Nat)) (vd : VirtualDevice)
    (rng : Rng) (h : ∀ s ∈ ssids, s.length ≤ 32) :
    (probeSSID ssids vd rng).1.length ≤ 32 := by
  unfold probeSSID
  split
  split_ifs
  · simp
  · exact getD_length_le _ _ h
  · exact getD_length_le _ _ h
  · rw [randLowercase_length]; omega

theorem macHeader_length (fc a1 a2 a3 : List Nat) (seq : Nat) :
    (macHeader fc a1 a2 a3 seq).length =
      fc.length + a1.length + a2.length + a3.length + 2 := by
  simp [macHeader, seqBytes]; omega

theorem drop24_macHeader (fc a1 a2 a3 : List Nat) (seq : Nat) (body : List Nat)
    (h1 : fc.length = 4) (h2 : a1.length = 6) (h3 : a2.length = 6)
    (h4 : a3.length = 6) :
    (macHeader fc a1 a2 a3 seq ++ body).drop 24 = body := by
  have hl : (macHeader fc a1 a2 a3 seq).length = 24 := by
    rw [macHeader_length, h1, h2, h3, h4]
  rw [← hl, List.drop_left]

-- Terminal-position variants (last IE of a frame, no trailing bytes).

theorem scanIEs_ht_end : scanIEs (encodeTag 45 HT_CAPS_PAYLOAD) = [(45, HT_CAPS_PAYLOAD)] := by
  have h := scanIEs_ht []
  rwa [List.append_nil] at h

theorem scanIEs_vht_end :
    scanIEs (encodeTag 191 VHT_CAPS_PAYLOAD) = [(191, VHT_CAPS_PAYLOAD)] := by
  have h := scanIEs_vht []
  rwa [List.append_nil] at h

theorem scanIEs_he_end :
    scanIEs (encodeTag 255 (35 :: HE_CAPS_PAYLOAD)) = [(255, 35 :: HE_CAPS_PAYLOAD)] := by
  have h := scanIEs_he []
  rwa [List.append_nil] at h

theorem scanIEs_wfa_end :
    scanIEs (encodeTag 221 WFA_VEND_PAYLOAD) = [(221, WFA_VEND_PAYLOAD)] := by
  have h := scanIEs_wfa []
  rwa [List.append_nil] at h

theorem scanIEs_appleVend_end :
    scanIEs (encodeTag 221 APPLE_VEND_PAYLOAD) = [(221, APPLE_VEND_PAYLOAD)] := by
  have h := scanIEs_appleVend []
  rwa [List.append_nil] at h

-- --- FRAME IE CHARACTERISATIONS ---

/-- The probe request body (bytes after the 24-byte MAC header) parses into
exactly the source's IE sequence, in write order. -/
theorem buildProbePacket_scan (is5G : Bool) (ssids : List (List Nat))
    (vd : VirtualDevice) (channel : Nat) (rng : Rng) (hwf : WFDevice vd)
    (hss : ∀ s ∈ ssids, s.length ≤ 32) :
    scanIEs ((buildProbePacket is5G ssids vd channel rng).1.drop 24) =
      [(0x00, (probeSSID ssids vd rng).1),
       (0x01, ratesPayload is5G vd.generation),
       (0x03, [channel % 256])]
      ++ (if vd.platform = .PLATFORM_IOS then [(127, EXT_CAP_APPLE)] else [])
      ++ [(45, HT_CAPS_PAYLOAD)]
      ++ (if vd.generation ≠ .GEN_LEGACY then [(191, VHT_CAPS_PAYLOAD)] else [])
      ++ (if ¬(vd.platform = .PLATFORM_IOS) ∧ vd.generation ≠ .GEN_LEGACY then
            [(127, EXT_CAP_ANDROID)] else [])
      ++ (if vd.generation = .GEN_MODERN then [(255, 35 :: HE_CAPS_PAYLOAD)] else [])
      ++ [(221, WFA_VEND_PAYLOAD)]
      ++ (if vd.platform = .PLATFORM_IOS then [(221, APPLE_VEND_PAYLOAD)] else []) := by
  obtain ⟨hmac, hbssid⟩ := hwf
  have hs : (probeSSID ssids vd rng).1.length < 256 :=
    lt_of_le_of_lt (probeSSID_length_le ssids vd rng hss) (by norm_num)
  rcases vd with ⟨mac, bss, seq, pidx, gen, plat, hc, tx⟩
  simp only at hmac
  rcases hps : probeSSID ssids ⟨mac, bss, seq, pidx, gen, plat, hc, tx⟩ rng with ⟨s, rng2⟩
  rw [hps] at hs
  simp only at hs
  simp only [buildProbePacket, hps]
  rw [List.append_assoc, List.append_assoc, List.append_assoc, List.append_assoc,
    List.append_assoc, List.append_assoc, List.append_assoc, List.append_assoc,
    List.append_assoc, List.append_assoc]
  rw [drop24_macHeader _ _ _ _ _ _ (by rfl) (by simp) hmac (by simp)]
  cases gen <;> cases plat <;>
    simp [scanIEs_ssid s hs, scanIEs_rates, scanIEs_ds, scanIEs_extCapApple,
      scanIEs_ht, scanIEs_vht, scanIEs_extCapAndroid, scanIEs_he, scanIEs_wfa,
      scanIEs_appleVend, scanIEs_ht_end, scanIEs_vht_end, scanIEs_he_end,
      scanIEs_wfa_end, scanIEs_appleVend_end]

theorem drop28_assocHeader (fc a1 a2 a3 : List Nat) (seq : Nat) (body : List Nat)
    (h1 : fc.length = 4) (h2 : a1.length = 6) (h3 : a2.length = 6)
    (h4 : a3.length = 6) :
    (macHeader fc a1 a2 a3 seq ++ ([0x31, 0x04, 0x0A, 0x00] ++ body)).drop 28 = body := by
  have h24 := drop24_macHeader fc a1 a2 a3 seq ([0x31, 0x04, 0x0A, 0x00] ++ body)
    h1 h2 h3 h4
  have : (28 : Nat) = 24 + 4 := by norm_num
  rw [this, ← List.drop_drop, h24]
  rfl

/-- The association request body (bytes after the 24-byte MAC header and the
4 fixed Cap Info / Listen Interval bytes) parses into exactly the source's
IE sequence, in write order. -/
theorem buildAssocRequestPacket_scan (is5G : Bool) (vd : VirtualDevice)
    (ssid : List Nat) (hwf : WFDevice vd) (hs : ssid.length ≤ 32) :
    scanIEs ((buildAssocRequestPacket is5G vd ssid).drop 28) =
      [(0x00, ssid),
       (0x01, ratesPayload is5G vd.generation),
       (48, RSN_PAYLOAD),
       (45, HT_CAPS_PAYLOAD)]
      ++ (if vd.generation ≠ .GEN_LEGACY then [(191, VHT_CAPS_PAYLOAD)] else [])
      ++ (if vd.generation = .GEN_MODERN then [(255, 35 :: HE_CAPS_PAYLOAD)] else []) := by
  obtain ⟨hmac, hbssid⟩ := hwf
  have hs' : ssid.length < 256 := lt_of_le_of_lt hs (by norm_num)
  rcases vd with ⟨mac, bss, seq, pidx, gen, plat, hc, tx⟩
  simp only at hmac hbssid
  simp only [buildAssocRequestPacket]
  rw [List.append_assoc, List.append_assoc, List.append_assoc, List.append_assoc,
    List.append_assoc, List.append_assoc]
  rw [drop28_assocHeader _ _ _ _ _ _ (by rfl) hbssid hmac hbssid]
  cases gen <;>
    simp [scanIEs_ssid ssid hs', scanIEs_rates, scanIEs_rsn, scanIEs_ht,
      scanIEs_vht, scanIEs_he, scanIEs_ht_end, scanIEs_vht_end, scanIEs_he_end]

-- --- CONCRETE SAMPLE OBJECTS (used by witnesses) ---

/-- A concrete Legacy-IoT virtual device. -/
def exLegacyDevice : VirtualDevice :=
  ⟨[0x00, 0x14, 0x38, 1, 2, 3], [0x00, 0x11, 0x32, 4, 5, 6], 100, -1,
   .GEN_LEGACY, .PLATFORM_OTHER, false, 78⟩

/-- A concrete Common-generation Android device. -/
def exCommonDevice : VirtualDevice :=
  ⟨[0x24, 0xFC, 0xEE, 1, 2, 3], [0x00, 0x11, 0x32, 4, 5, 6], 200, 0,
   .GEN_COMMON, .PLATFORM_ANDROID, false, 78⟩

/-- A concrete Modern iOS device. -/
def exAppleDevice : VirtualDevice :=
  ⟨[0xFC, 0xFC, 0x48, 1, 2, 3], [0x00, 0x11, 0x32, 4, 5, 6], 300, 0,
   .GEN_MODERN, .PLATFORM_IOS, false, 80⟩

/-- A one-entry SSID store ("home"). -/
def exStore : List (List Nat) := [[104, 111, 109, 101]]

/-- A concrete PRNG stream (all draws zero). -/
def exRng : Rng := ⟨fun _ => 0, 0⟩

-- --- CLAIM C1 ---

/-- C1: for every frame emitted by the probe-request builder or the
association-request builder, a Legacy device's frame contains no VHT Caps IE
(tag 191) and no Extension IE (tag 255) carrying HE Caps (extension id 35),
and a Common device's frame contains no Extension IE with extension id 35. -/
theorem legacy_common_capability_invariant (is5G : Bool) (ssids : List (List Nat))
    (vd : VirtualDevice) (channel : Nat) (rng : Rng) (assocSSID : List Nat)
    (hwf : WFDevice vd) (hss : ∀ s ∈ ssids, s.length ≤ 32)
    (has : assocSSID.length ≤ 32) :
    (vd.generation = .GEN_LEGACY →
      (∀ ie ∈ scanIEs ((buildProbePacket is5G ssids vd channel rng).1.drop 24),
        ie.1 ≠ 191 ∧ ¬(ie.1 = 255 ∧ ie.2.head? = some 35)) ∧
      (∀ ie ∈ scanIEs ((buildAssocRequestPacket is5G vd assocSSID).drop 28),
        ie.1 ≠ 191 ∧ ¬(ie.1 = 255 ∧ ie.2.head? = some 35))) ∧
    (vd.generation = .GEN_COMMON →
      (∀ ie ∈ scanIEs ((buildProbePacket is5G ssids vd channel rng).1.drop 24),
        ¬(ie.1 = 255 ∧ ie.2.head? = some 35)) ∧
      (∀ ie ∈ scanIEs ((buildAssocRequestPacket is5G vd assocSSID).drop 28),
        ¬(ie.1 = 255 ∧ ie.2.head? = some 35))) := by
  have hp := buildProbePacket_scan is5G ssids vd channel rng hwf hss
  have ha := buildAssocRequestPacket_scan is5G vd assocSSID hwf has
  constructor
  · intro hgen
    rw [hp, ha, hgen]
    constructor
    · intro ie hie
      by_cases hplat : vd.platform = .PLATFORM_IOS <;>
        simp [hplat] at hie <;>
        rcases hie with rfl | rfl | rfl | rfl | rfl | rfl | rfl <;> simp
    · intro ie hie
      simp at hie
      rcases hie with rfl | rfl | rfl | rfl <;> simp
  · intro hgen
    rw [hp, ha, hgen]
    constructor
    · intro ie hie
      by_cases hplat : vd.platform = .PLATFORM_IOS <;>
        simp [hplat] at hie <;>
        rcases hie with rfl | rfl | rfl | rfl | rfl | rfl | rfl | rfl <;> simp
    · intro ie hie
      simp at hie
      rcases hie with rfl | rfl | rfl | rfl | rfl <;> simp

/-- Witness for C1: the Legacy/Common capability invariant applied to a
concrete Legacy device on channel 6, 2.4 GHz. -/
theorem legacy_common_capability_invariant_witness :
    (exLegacyDevice.generation = .GEN_LEGACY →
      (∀ ie ∈ scanIEs ((buildProbePacket false exStore exLegacyDevice 6 exRng).1.drop 24),
        ie.1 ≠ 191 ∧ ¬(ie.1 = 255 ∧ ie.2.head? = some 35)) ∧
      (∀ ie ∈ scanIEs ((buildAssocRequestPacket false exLegacyDevice [104]).drop 28),
        ie.1 ≠ 191 ∧ ¬(ie.1 = 255 ∧ ie.2.head? = some 35))) ∧
    (exLegacyDevice.generation = .GEN_COMMON →
      (∀ ie ∈ scanIEs ((buildProbePacket false exStore exLegacyDevice 6 exRng).1.drop 24),
        ¬(ie.1 = 255 ∧ ie.2.head? = some 35)) ∧
      (∀ ie ∈ scanIEs ((buildAssocRequestPacket false exLegacyDevice [104]).drop 28),
        ¬(ie.1 = 255 ∧ ie.2.head? = some 35))) :=
  legacy_common_capability_invariant false exStore exLegacyDevice 6 exRng [104]
    (by decide) (by decide) (by decide)

-- --- CLAIM C3 ---

/-- C3: every synthesized probe request lists its IEs in the strict source
order — SSID, Supported Rates, DS Parameter Set, Apple Extended Capabilities
(iOS), HT Caps, VHT Caps (non-Legacy), non-Apple Extended Capabilities
(non-iOS non-Legacy), HE Caps (Modern), WFA vendor IE, and last the Apple
vendor IE (iOS); in particular an iOS probe contains exactly one Apple-OUI
tag-221 IE and it appears after the WFA vendor IE. -/
theorem probe_ie_strict_order (is5G : Bool) (ssids : List (List Nat))
    (vd : VirtualDevice) (channel : Nat) (rng : Rng) (hwf : WFDevice vd)
    (hss : ∀ s ∈ ssids, s.length ≤ 32) :
    scanIEs ((buildProbePacket is5G ssids vd channel rng).1.drop 24) =
      [(0x00, (probeSSID ssids vd rng).1),
       (0x01, ratesPayload is5G vd.generation),
       (0x03, [channel % 256])]
      ++ (if vd.platform = .PLATFORM_IOS then [(127, EXT_CAP_APPLE)] else [])
      ++ [(45, HT_CAPS_PAYLOAD)]
      ++ (if vd.generation ≠ .GEN_LEGACY then [(191, VHT_CAPS_PAYLOAD)] else [])
      ++ (if ¬(vd.platform = .PLATFORM_IOS) ∧ vd.generation ≠ .GEN_LEGACY then
            [(127, EXT_CAP_ANDROID)] else [])
      ++ (if vd.generation = .GEN_MODERN then [(255, 35 :: HE_CAPS_PAYLOAD)] else [])
      ++ [(221, WFA_VEND_PAYLOAD)]
      ++ (if vd.platform = .PLATFORM_IOS then [(221, APPLE_VEND_PAYLOAD)] else []) ∧
    (vd.platform = .PLATFORM_IOS →
      ((scanIEs ((buildProbePacket is5G ssids vd channel rng).1.drop 24)).filter
          (fun ie => ie.1 == 221 && ie.2.take 3 == [0x00, 0x17, 0xF2])).length = 1 ∧
      ∃ pre, scanIEs ((buildProbePacket is5G ssids vd channel rng).1.drop 24) =
        pre ++ [(221, WFA_VEND_PAYLOAD), (221, APPLE_VEND_PAYLOAD)]) := by
  have hp := buildProbePacket_scan is5G ssids vd channel rng hwf hss
  refine ⟨hp, fun hplat => ?_⟩
  rw [hp, hplat]
  constructor
  · cases hgen : vd.generation <;>
      simp [List.filter, WFA_VEND_PAYLOAD, APPLE_VEND_PAYLOAD]
  · refine ⟨[(0x00, (probeSSID ssids vd rng).1),
       (0x01, ratesPayload is5G vd.generation),
       (0x03, [channel % 256])]
      ++ [(127, EXT_CAP_APPLE)]
      ++ [(45, HT_CAPS_PAYLOAD)]
      ++ (if vd.generation ≠ .GEN_LEGACY then [(191, VHT_CAPS_PAYLOAD)] else [])
      ++ (if vd.generation = .GEN_MODERN then [(255, 35 :: HE_CAPS_PAYLOAD)] else []), ?_⟩
    cases hgen : vd.generation <;> simp

/-- Witness for C3: the strict IE order applied to a concrete Modern iOS
device on channel 36, 5 GHz. -/
theorem probe_ie_strict_order_witness :
    scanIEs ((buildProbePacket true exStore exAppleDevice 36 exRng).1.drop 24) =
      [(0x00, (probeSSID exStore exAppleDevice exRng).1),
       (0x01, ratesPayload true exAppleDevice.generation),
       (0x03, [36 % 256])]
      ++ (if exAppleDevice.platform = .PLATFORM_IOS then [(127, EXT_CAP_APPLE)] else [])
      ++ [(45, HT_CAPS_PAYLOAD)]
      ++ (if exAppleDevice.generation ≠ .GEN_LEGACY then [(191, VHT_CAPS_PAYLOAD)] else [])
      ++ (if ¬(exAppleDevice.platform = .PLATFORM_IOS) ∧ exAppleDevice.generation ≠ .GEN_LEGACY then
            [(127, EXT_CAP_ANDROID)] else [])
      ++ (if exAppleDevice.generation = .GEN_MODERN then [(255, 35 :: HE_CAPS_PAYLOAD)] else [])
      ++ [(221, WFA_VEND_PAYLOAD)]
      ++ (if exAppleDevice.platform = .PLATFORM_IOS then [(221, APPLE_VEND_PAYLOAD)] else []) ∧
    (exAppleDevice.platform = .PLATFORM_IOS →
      ((scanIEs ((buildProbePacket true exStore exAppleDevice 36 exRng).1.drop 24)).filter
          (fun ie => ie.1 == 221 && ie.2.take 3 == [0x00, 0x17, 0xF2])).length = 1 ∧
      ∃ pre, scanIEs ((buildProbePacket true exStore exAppleDevice 36 exRng).1.drop 24) =
        pre ++ [(221, WFA_VEND_PAYLOAD), (221, APPLE_VEND_PAYLOAD)]) :=
  probe_ie_strict_order true exStore exAppleDevice 36 exRng (by decide) (by decide)

-- --- SEQUENCE-CONTROL BYTE HELPERS ---

theorem macHeader_getElem23 (fc a1 a2 a3 : List Nat) (seq : Nat) (body : List Nat)
    (h1 : fc.length = 4) (h2 : a1.length = 6) (h3 : a2.length = 6)
    (h4 : a3.length = 6) :
    (macHeader fc a1 a2 a3 seq ++ body)[23]? = some ((seq >>> 8) &&& 0xF0) := by
  have hpre : (fc ++ (a1 ++ (a2 ++ (a3 ++ [seq &&& 0xFF])))).length = 23 := by
    simp [h1, h2, h3, h4]
  have hsplit : macHeader fc a1 a2 a3 seq ++ body
      = (fc ++ (a1 ++ (a2 ++ (a3 ++ [seq &&& 0xFF])))) ++ (((seq >>> 8) &&& 0xF0) :: body) := by
    simp [macHeader, seqBytes]
  rw [hsplit, List.getElem?_append_right hpre.le, hpre]
  simp

theorem macHeader_getElem22 (fc a1 a2 a3 : List Nat) (seq : Nat) (body : List Nat)
    (h1 : fc.length = 4) (h2 : a1.length = 6) (h3 : a2.length = 6)
    (h4 : a3.length = 6) :
    (macHeader fc a1 a2 a3 seq ++ body)[22]? = some (seq &&& 0xFF) := by
  have hpre : (fc ++ (a1 ++ (a2 ++ a3))).length = 22 := by
    simp [h1, h2, h3, h4]
  have hsplit : macHeader fc a1 a2 a3 seq ++ body
      = (fc ++ (a1 ++ (a2 ++ a3))) ++ ((seq &&& 0xFF) :: ((seq >>> 8) &&& 0xF0) :: body) := by
    simp [macHeader, seqBytes]
  rw [hsplit, List.getElem?_append_right hpre.le, hpre]
  simp

/-- For a stored sequence number below 4096 the second Sequence Control byte
`(seq >> 8) & 0xF0` is identically zero. -/
theorem seqHighByte_eq_zero (seq : Nat) (h : seq < 4096) :
    (seq >>> 8) &&& 0xF0 = 0 := by
  have h16 : seq >>> 8 < 16 := by
    rw [Nat.shiftRight_eq_div_pow]
    exact (Nat.div_lt_iff_lt_mul (by norm_num)).mpr (by omega)
  have hall : ∀ x < 16, x &&& 0xF0 = 0 := by decide
  exact hall _ h16

theorem ratesPayload_length_le (is5G : Bool) (gen : DeviceGen) :
    (ratesPayload is5G gen).length ≤ 8 := by
  unfold ratesPayload
  split_ifs <;> decide

-- --- CLAIM C10 ---

/-- C10: every frame produced by every builder (probe, auth, assoc, data,
beacon, noise probe) has second Sequence Control byte (offset 23) exactly
`0x00`: with the stored sequence number below 4096, `(seq >> 8) & 0xF0` is
identically zero, so neither the fragment bits nor bits 8..11 of the
sequence counter are ever encoded on the wire. -/
theorem all_frames_byte23_zero (is5G : Bool) (ssids : List (List Nat))
    (vd : VirtualDevice) (channel : Nat) (rng rngData rngNoise : Rng)
    (assocSSID beaconMac beaconSSID : List Nat) (beaconSeq : Nat)
    (hwf : WFDevice vd) (hseq : vd.sequenceNumber < 4096)
    (hbm : beaconMac.length = 6) (hbseq : beaconSeq < 4096) :
    (buildProbePacket is5G ssids vd channel rng).1[23]? = some 0 ∧
    (buildAuthPacket vd)[23]? = some 0 ∧
    (buildAssocRequestPacket is5G vd assocSSID)[23]? = some 0 ∧
    (buildEncryptedDataPacket vd rngData).1[23]? = some 0 ∧
    (buildBeaconPacket is5G beaconMac beaconSSID channel beaconSeq)[23]? = some 0 ∧
    (buildNoisePacket is5G rngNoise).1[23]? = some 0 := by
  obtain ⟨hmac, hbssid⟩ := hwf
  have hz := seqHighByte_eq_zero vd.sequenceNumber hseq
  refine ⟨?_, ?_, ?_, ?_, ?_, ?_⟩
  · rcases hps : probeSSID ssids vd rng with ⟨s, rng2⟩
    simp only [buildProbePacket, hps, List.append_assoc]
    rw [macHeader_getElem23 _ _ _ _ _ _ (by rfl) (by simp) hmac (by simp), hz]
  · rw [buildAuthPacket,
      macHeader_getElem23 _ _ _ _ _ _ (by rfl) hbssid hmac hbssid, hz]
  · simp only [buildAssocRequestPacket, List.append_assoc]
    rw [macHeader_getElem23 _ _ _ _ _ _ (by rfl) hbssid hmac hbssid, hz]
  · simp only [buildEncryptedDataPacket, Rng.nextRange, List.append_assoc]
    rw [macHeader_getElem23 _ _ _ _ _ _ (by rfl) hbssid hmac hbssid, hz]
  · simp only [buildBeaconPacket, List.append_assoc]
    rw [macHeader_getElem23 _ _ _ _ _ _ (by rfl) (by simp) hbm hbm,
      seqHighByte_eq_zero _ hbseq]
  · simp only [buildNoisePacket, Rng.next, Rng.nextRange]
    split <;>
    · simp only [List.append_assoc]
      rw [macHeader_getElem23 _ _ _ _ _ _ (by rfl) (by simp) (by simp) (by simp),
        seqHighByte_eq_zero _ (Nat.mod_lt _ (by norm_num))]

/-- Witness for C10 at concrete devices and streams. -/
theorem all_frames_byte23_zero_witness :
    (buildProbePacket false exStore exLegacyDevice 6 exRng).1[23]? = some 0 ∧
    (buildAuthPacket exLegacyDevice)[23]? = some 0 ∧
    (buildAssocRequestPacket false exLegacyDevice [104])[23]? = some 0 ∧
    (buildEncryptedDataPacket exLegacyDevice exRng).1[23]? = some 0 ∧
    (buildBeaconPacket false [2, 17, 34, 1, 2, 3] [104] 6 77)[23]? = some 0 ∧
    (buildNoisePacket false exRng).1[23]? = some 0 :=
  all_frames_byte23_zero false exStore exLegacyDevice 6 exRng exRng exRng
    [104] [2, 17, 34, 1, 2, 3] [104] 77 (by decide) (by decide) (by decide) (by decide)

-- --- PAYLOAD LENGTH FACTS ---

theorem HT_CAPS_PAYLOAD_length : HT_CAPS_PAYLOAD.length = 25 := rfl
theorem VHT_CAPS_PAYLOAD_length : VHT_CAPS_PAYLOAD.length = 12 := rfl
theorem HE_CAPS_PAYLOAD_length : HE_CAPS_PAYLOAD.length = 22 := rfl
theorem APPLE_VEND_PAYLOAD_length : APPLE_VEND_PAYLOAD.length = 7 := rfl
theorem WFA_VEND_PAYLOAD_length : WFA_VEND_PAYLOAD.length = 9 := rfl
theorem RSN_PAYLOAD_length : RSN_PAYLOAD.length = 20 := rfl
theorem EXT_CAP_APPLE_length : EXT_CAP_APPLE.length = 8 := rfl
theorem EXT_CAP_ANDROID_length : EXT_CAP_ANDROID.length = 8 := rfl
theorem RATES_LEGACY_length : RATES_LEGACY.length = 4 := rfl
theorem RATES_MODERN_2G_length : RATES_MODERN_2G.length = 8 := rfl
theorem RATES_5G_length : RATES_5G.length = 8 := rfl

-- --- CLAIM C9 ---

/-- C9: with any SSID of at most 32 octets, every frame builder returns a
frame of length at most 1024, so no build writes past the 1024-byte
`packetBuffer`. -/
theorem builders_fit_buffer (is5G : Bool) (ssids : List (List Nat))
    (vd : VirtualDevice) (channel : Nat) (rng rngData : Rng)
    (assocSSID beaconMac beaconSSID : List Nat) (beaconSeq : Nat)
    (hwf : WFDevice vd) (hss : ∀ s ∈ ssids, s.length ≤ 32)
    (hassoc : assocSSID.length ≤ 32) (hbm : beaconMac.length = 6)
    (hbss : beaconSSID.length ≤ 32) :
    (buildProbePacket is5G ssids vd channel rng).1.length ≤ 1024 ∧
    (buildAuthPacket vd).length ≤ 1024 ∧
    (buildAssocRequestPacket is5G vd assocSSID).length ≤ 1024 ∧
    (buildEncryptedDataPacket vd rngData).1.length ≤ 1024 ∧
    (buildBeaconPacket is5G beaconMac beaconSSID channel beaconSeq).length ≤ 1024 := by
  obtain ⟨hmac, hbssid⟩ := hwf
  have hrl := ratesPayload_length_le is5G vd.generation
  refine ⟨?_, ?_, ?_, ?_, ?_⟩
  · rcases hps : probeSSID ssids vd rng with ⟨s, rng2⟩
    have hsl : s.length ≤ 32 := by
      have h := probeSSID_length_le ssids vd rng hss
      rw [hps] at h; exact h
    simp only [buildProbePacket, hps]
    split_ifs <;>
      simp [macHeader, seqBytes, encodeTag, hmac, HT_CAPS_PAYLOAD_length,
        VHT_CAPS_PAYLOAD_length, HE_CAPS_PAYLOAD_length, APPLE_VEND_PAYLOAD_length,
        WFA_VEND_PAYLOAD_length, EXT_CAP_APPLE_length, EXT_CAP_ANDROID_length] <;>
      omega
  · simp [buildAuthPacket, macHeader, seqBytes, hmac, hbssid]
  · simp only [buildAssocRequestPacket]
    split_ifs <;>
      simp [macHeader, seqBytes, encodeTag, hmac, hbssid, HT_CAPS_PAYLOAD_length,
        VHT_CAPS_PAYLOAD_length, HE_CAPS_PAYLOAD_length, RSN_PAYLOAD_length] <;>
      omega
  · simp only [buildEncryptedDataPacket, Rng.nextRange]
    simp [macHeader, seqBytes, randBytes_length, hmac, hbssid]
    have := Nat.mod_lt (rngData.stream (rngData.idx + 1)) (show 0 < 512 - 64 by norm_num)
    omega
  · simp only [buildBeaconPacket]
    split_ifs <;>
      simp [macHeader, seqBytes, encodeTag, htOpPayload, hbm,
        RATES_LEGACY_length, RATES_5G_length] <;>
      omega

/-- Witness for C9 at a concrete device, store and streams. -/
theorem builders_fit_buffer_witness :
    (buildProbePacket false exStore exCommonDevice 6 exRng).1.length ≤ 1024 ∧
    (buildAuthPacket exCommonDevice).length ≤ 1024 ∧
    (buildAssocRequestPacket false exCommonDevice [104]).length ≤ 1024 ∧
    (buildEncryptedDataPacket exCommonDevice exRng).1.length ≤ 1024 ∧
    (buildBeaconPacket false [2, 17, 34, 1, 2, 3] [104] 6 77).length ≤ 1024 :=
  builders_fit_buffer false exStore exCommonDevice 6 exRng exRng [104]
    [2, 17, 34, 1, 2, 3] [104] 77 (by decide) (by decide) (by decide) (by decide)
    (by decide)

-- --- CLAIM C2 ---

theorem getD_mem_of_lt (l : List (List Nat)) (i : Nat) (h : i < l.length) :
    l.getD i [] ∈ l := by
  induction l generalizing i with
  | nil => simp at h
  | cons a t ih =>
    cases i with
    | zero => simp
    | succ i =>
      simp only [List.length_cons] at h
      exact List.mem_cons_of_mem a (ih i (by omega))

theorem take3_oui_mem (pool : List (List Nat)) (i : Nat) (suffix : List Nat)
    (hp : ∀ o ∈ pool, o.length = 3) (hi : i < pool.length) :
    ((pool.getD i []) ++ suffix).take 3 ∈ pool := by
  have hmem : pool.getD i [] ∈ pool := getD_mem_of_lt pool i hi
  rw [List.take_left' (hp _ hmem)]
  exact hmem

theorem take3_oui_mem' (pool : List (List Nat)) (i : Nat) (suffix : List Nat)
    (hp : ∀ o ∈ pool, o.length = 3) (hi : i < pool.length) :
    ((pool[i]?.getD []) ++ suffix).take 3 ∈ pool := by
  have h := take3_oui_mem pool i suffix hp hi
  rwa [List.getD_eq_getElem?_getD] at h

/-- C2: the identity generator draws one uniform `r ∈ [0,100)` and maps it
by cumulative thresholds: `[0,40)` is Apple / iOS with Modern w.p. 0.20 else
Common; `[40,75)` is Samsung / Android with Modern w.p. 0.30 else Common;
`[75,82)` is Legacy-IoT / Other, forced Legacy; `[82,100)` is
modern-generic / Android, forced Modern.  The OUI (visible whenever the
private-MAC roll fails, and always for Legacy) comes from the corresponding
pool, and the stated probabilities are the exact counts out of 100. -/
theorem identity_generator_distribution (ssids : List (List Nat)) (rng : Rng) :
    rng.stream rng.idx % 100 < 100 ∧
    (rng.stream rng.idx % 100 < 40 →
      (generateWeightedIdentity ssids rng).1.platform = .PLATFORM_IOS ∧
      (generateWeightedIdentity ssids rng).1.generation =
        (if rng.stream (rng.idx + 2) % 100 < 80 then .GEN_COMMON else .GEN_MODERN) ∧
      (¬ rng.stream (rng.idx + 4) % 100 <
          (if rng.stream (rng.idx + 2) % 100 < 80 then 50 else 85) →
        (generateWeightedIdentity ssids rng).1.mac.take 3 ∈ OUI_APPLE)) ∧
    (40 ≤ rng.stream rng.idx % 100 → rng.stream rng.idx % 100 < 75 →
      (generateWeightedIdentity ssids rng).1.platform = .PLATFORM_ANDROID ∧
      (generateWeightedIdentity ssids rng).1.generation =
        (if rng.stream (rng.idx + 2) % 100 < 70 then .GEN_COMMON else .GEN_MODERN) ∧
      (¬ rng.stream (rng.idx + 4) % 100 <
          (if rng.stream (rng.idx + 2) % 100 < 70 then 50 else 85) →
        (generateWeightedIdentity ssids rng).1.mac.take 3 ∈ OUI_SAMSUNG)) ∧
    (75 ≤ rng.stream rng.idx % 100 → rng.stream rng.idx % 100 < 82 →
      (generateWeightedIdentity ssids rng).1.platform = .PLATFORM_OTHER ∧
      (generateWeightedIdentity ssids rng).1.generation = .GEN_LEGACY ∧
      (generateWeightedIdentity ssids rng).1.mac.take 3 ∈ OUI_LEGACY_IOT) ∧
    (82 ≤ rng.stream rng.idx % 100 →
      (generateWeightedIdentity ssids rng).1.platform = .PLATFORM_ANDROID ∧
      (generateWeightedIdentity ssids rng).1.generation = .GEN_MODERN ∧
      (¬ rng.stream (rng.idx + 3) % 100 < 85 →
        (generateWeightedIdentity ssids rng).1.mac.take 3 ∈ OUI_MODERN_GEN)) ∧
    ((Finset.range 100).filter (fun r => r < 40)).card = 40 ∧
    ((Finset.range 100).filter (fun r => 40 ≤ r ∧ r < 75)).card = 35 ∧
    ((Finset.range 100).filter (fun r => 75 ≤ r ∧ r < 82)).card = 7 ∧
    ((Finset.range 100).filter (fun r => 82 ≤ r)).card = 18 ∧
    ((Finset.range 100).filter (fun g => ¬ g < 80)).card = 20 ∧
    ((Finset.range 100).filter (fun g => ¬ g < 70)).card = 30 := by
  have happle : ∀ o ∈ OUI_APPLE, o.length = 3 := by decide
  have hsams : ∀ o ∈ OUI_SAMSUNG, o.length = 3 := by decide
  have hiot : ∀ o ∈ OUI_LEGACY_IOT, o.length = 3 := by decide
  have hgen : ∀ o ∈ OUI_MODERN_GEN, o.length = 3 := by decide
  refine ⟨Nat.mod_lt _ (by norm_num), ?_, ?_, ?_, ?_, by decide, by decide,
    by decide, by decide, by decide, by decide⟩
  · intro h40
    by_cases hg : rng.stream (rng.idx + 2) % 100 < 80
    · by_cases hpriv : rng.stream (rng.idx + 4) % 100 < 50
      · simp [generateWeightedIdentity, Rng.next, Nat.add_assoc, h40, hg, hpriv]
      · simp [generateWeightedIdentity, Rng.next, Nat.add_assoc, h40, hg, hpriv]
        exact take3_oui_mem' _ _ _ happle (by exact Nat.mod_lt _ (by decide))
    · by_cases hpriv : rng.stream (rng.idx + 4) % 100 < 85
      · simp [generateWeightedIdentity, Rng.next, Nat.add_assoc, h40, hg, hpriv]
      · simp [generateWeightedIdentity, Rng.next, Nat.add_assoc, h40, hg, hpriv]
        exact take3_oui_mem' _ _ _ happle (by exact Nat.mod_lt _ (by decide))
  · intro h40 h75
    have hn40 : ¬ rng.stream rng.idx % 100 < 40 := by omega
    by_cases hg : rng.stream (rng.idx + 2) % 100 < 70
    · by_cases hpriv : rng.stream (rng.idx + 4) % 100 < 50
      · simp [generateWeightedIdentity, Rng.next, Nat.add_assoc, hn40, h75, hg, hpriv]
      · simp [generateWeightedIdentity, Rng.next, Nat.add_assoc, hn40, h75, hg, hpriv]
        exact take3_oui_mem' _ _ _ hsams (by exact Nat.mod_lt _ (by decide))
    · by_cases hpriv : rng.stream (rng.idx + 4) % 100 < 85
      · simp [generateWeightedIdentity, Rng.next, Nat.add_assoc, hn40, h75, hg, hpriv]
      · simp [generateWeightedIdentity, Rng.next, Nat.add_assoc, hn40, h75, hg, hpriv]
        exact take3_oui_mem' _ _ _ hsams (by exact Nat.mod_lt _ (by decide))
  · intro h75 h82
    have hn40 : ¬ rng.stream rng.idx % 100 < 40 := by omega
    have hn75 : ¬ rng.stream rng.idx % 100 < 75 := by omega
    simp [generateWeightedIdentity, Rng.next, Nat.add_assoc, hn40, hn75, h82]
    exact take3_oui_mem' _ _ _ hiot (by exact Nat.mod_lt _ (by decide))
  · intro h82
    have hn40 : ¬ rng.stream rng.idx % 100 < 40 := by omega
    have hn75 : ¬ rng.stream rng.idx % 100 < 75 := by omega
    have hn82 : ¬ rng.stream rng.idx % 100 < 82 := by omega
    by_cases hpriv : rng.stream (rng.idx + 3) % 100 < 85
    · simp [generateWeightedIdentity, Rng.next, Nat.add_assoc, hn40, hn75, hn82, hpriv]
    · simp [generateWeightedIdentity, Rng.next, Nat.add_assoc, hn40, hn75, hn82, hpriv]
      exact take3_oui_mem' _ _ _ hgen (by exact Nat.mod_lt _ (by decide))

/-- A concrete PRNG stream whose first roll (80) selects the Legacy-IoT row. -/
def exRngIoT : Rng := ⟨fun _ => 80, 0⟩

/-- Witness for C2: with first roll 80 (in `[75,82)`) the generator yields a
Legacy device on platform Other with a legacy-IoT OUI. -/
theorem identity_generator_distribution_witness :
    (generateWeightedIdentity [] exRngIoT).1.platform = .PLATFORM_OTHER ∧
    (generateWeightedIdentity [] exRngIoT).1.generation = .GEN_LEGACY ∧
    (generateWeightedIdentity [] exRngIoT).1.mac.take 3 ∈ OUI_LEGACY_IOT :=
  (identity_generator_distribution [] exRngIoT).2.2.2.1 (by decide) (by decide)

-- --- CLAIM C4 ---

/-- C4: on a 5 GHz hop, a per-packet slot that picks a Legacy device skips
the slot: no device frame is built or transmitted, the swarm is unchanged,
and the interaction counter is unchanged. -/
theorem legacy_skipped_on_5ghz (enableInteraction enableSeqGaps : Bool)
    (ssids : List (List Nat)) (swarm : List VirtualDevice) (channel : Nat)
    (rng : Rng) (env : Nat → Nat) (cnt : Nat)
    (hne : swarm ≠ [])
    (hleg : (swarm.getD (rng.stream rng.idx % swarm.length) default).generation =
      .GEN_LEGACY) :
    (ghostSlot enableInteraction enableSeqGaps true ssids swarm channel rng env cnt).1 = [] ∧
    (ghostSlot enableInteraction enableSeqGaps true ssids swarm channel rng env cnt).2.1 = swarm ∧
    (ghostSlot enableInteraction enableSeqGaps true ssids swarm channel rng env cnt).2.2.1 = cnt := by
  rw [List.getD_eq_getElem?_getD] at hleg
  simp [ghostSlot, Rng.next, hne, hleg]

/-- Witness for C4: a one-device Legacy swarm on a 5 GHz hop transmits no
device frame. -/
theorem legacy_skipped_on_5ghz_witness :
    (ghostSlot true true true exStore [exLegacyDevice] 36 exRng (fun _ => 0) 5).1 = [] ∧
    (ghostSlot true true true exStore [exLegacyDevice] 36 exRng (fun _ => 0) 5).2.1 =
      [exLegacyDevice] ∧
    (ghostSlot true true true exStore [exLegacyDevice] 36 exRng (fun _ => 0) 5).2.2.1 = 5 :=
  legacy_skipped_on_5ghz true true exStore [exLegacyDevice] 36 exRng (fun _ => 0) 5
    (by decide) (by decide)

-- --- CLAIM C5 HELPERS ---

theorem buildEncryptedDataPacket_bytes (vd : VirtualDevice) (rng : Rng)
    (hwf : WFDevice vd) :
    (buildEncryptedDataPacket vd rng).1[22]? = some (vd.sequenceNumber &&& 0xFF) ∧
    (buildEncryptedDataPacket vd rng).1.take 2 = [0x88, 0x41] := by
  obtain ⟨hmac, hbssid⟩ := hwf
  constructor
  · simp only [buildEncryptedDataPacket, Rng.nextRange, List.append_assoc]
    rw [macHeader_getElem22 _ _ _ _ _ _ (by rfl) hbssid hmac hbssid]
  · simp [buildEncryptedDataPacket, Rng.nextRange, macHeader, seqBytes]

theorem buildAuthPacket_bytes (vd : VirtualDevice) (hwf : WFDevice vd) :
    (buildAuthPacket vd)[0]? = some 0xB0 ∧
    (buildAuthPacket vd)[22]? = some (vd.sequenceNumber &&& 0xFF) := by
  obtain ⟨hmac, hbssid⟩ := hwf
  constructor
  · simp [buildAuthPacket, macHeader]
  · simp only [buildAuthPacket, List.append_assoc]
    rw [macHeader_getElem22 _ _ _ _ _ _ (by rfl) hbssid hmac hbssid]

theorem buildAssocRequestPacket_bytes (is5G : Bool) (vd : VirtualDevice)
    (ssid : List Nat) (hwf : WFDevice vd) :
    (buildAssocRequestPacket is5G vd ssid)[0]? = some 0x00 ∧
    (buildAssocRequestPacket is5G vd ssid)[22]? = some (vd.sequenceNumber &&& 0xFF) := by
  obtain ⟨hmac, hbssid⟩ := hwf
  constructor
  · simp [buildAssocRequestPacket, macHeader]
  · simp only [buildAssocRequestPacket, List.append_assoc]
    rw [macHeader_getElem22 _ _ _ _ _ _ (by rfl) hbssid hmac hbssid]

/-- Induction core of the data burst: `count` data frames, each starting
`88 41`, each carrying the device's then-current sequence number at offset
22, the sequence number advancing by exactly one (mod 4096) per frame. -/
theorem dataBurst_spec (is5G : Bool) (count : Nat) : ∀ (vd : VirtualDevice)
    (rng : Rng) (env : Nat → Nat) (envIdx : Nat), WFDevice vd →
    vd.sequenceNumber < 4096 →
    (dataBurst is5G count vd rng env envIdx).1.length = count ∧
    (dataBurst is5G count vd rng env envIdx).2.1.sequenceNumber =
      (vd.sequenceNumber + count) % 4096 ∧
    (∀ j, j < count →
      ((dataBurst is5G count vd rng env envIdx).1.getD j [])[22]? =
        some (((vd.sequenceNumber + j) % 4096) &&& 0xFF) ∧
      ((dataBurst is5G count vd rng env envIdx).1.getD j []).take 2 = [0x88, 0x41]) := by
  induction count with
  | zero =>
    intro vd rng env envIdx hwf hseq
    refine ⟨rfl, ?_, fun j hj => absurd hj (by omega)⟩
    simp [dataBurst, Nat.mod_eq_of_lt hseq]
  | succ c ih =>
    intro vd rng env envIdx hwf hseq
    have hb := buildEncryptedDataPacket_bytes vd rng hwf
    rcases hpkt : buildEncryptedDataPacket vd rng with ⟨pkt, rng1⟩
    rw [hpkt] at hb
    simp only at hb
    have hwf' : WFDevice { vd with sequenceNumber := (vd.sequenceNumber + 1) % 4096 } := hwf
    have hseq' : ((vd.sequenceNumber + 1) % 4096) < 4096 := Nat.mod_lt _ (by norm_num)
    simp only [dataBurst, hpkt]
    rcases hn1 : rng1.nextRange (5 * 75 / 100) (20 * 50 / 100) with ⟨d1, rng2⟩
    rcases hn2 : fillSilence is5G (env envIdx) rng2 with ⟨np, rng3⟩
    simp only [hn1, hn2]
    rcases hrec : dataBurst is5G c { vd with sequenceNumber := (vd.sequenceNumber + 1) % 4096 }
        rng3 env (envIdx + 1) with ⟨pkts, vdf, rngf⟩
    have hi := ih { vd with sequenceNumber := (vd.sequenceNumber + 1) % 4096 }
      rng3 env (envIdx + 1) hwf' hseq'
    rw [hrec] at hi
    simp only at hi
    obtain ⟨hlen, hfin, hframes⟩ := hi
    simp only [hrec]
    refine ⟨by simpa using hlen, ?_, ?_⟩
    · rw [hfin, Nat.mod_add_mod]
      congr 1
      omega
    · intro j hj
      cases j with
      | zero =>
        simpa [Nat.mod_eq_of_lt hseq] using hb
      | succ j =>
        have hj' : j < c := by omega
        have h := hframes j hj'
        simp only at h
        rw [Nat.mod_add_mod] at h
        have harith : vd.sequenceNumber + 1 + j = vd.sequenceNumber + (j + 1) := by omega
        rw [harith] at h
        simpa using h

-- --- CLAIM C5 ---

/-- C5: whenever the interaction simulation runs for a device with a valid
preferred SSID, the device's TX stream is exactly one Authentication frame
(first byte `0xB0`), then exactly one Association Request (first byte
`0x00`) containing an RSN IE (tag 48), then 3..11 encrypted Data frames
(`88 41`); the sequence number is bumped by exactly 1 (mod 4096) after each
frame — visible in each frame's low sequence byte and in the final device
state — and the interaction counter is incremented by exactly 1. -/
theorem interaction_sim_spec (is5G : Bool) (vd : VirtualDevice)
    (targetSSID : List Nat) (rng : Rng) (env : Nat → Nat) (cnt : Nat)
    (hwf : WFDevice vd) (hseq : vd.sequenceNumber < 4096)
    (hts : targetSSID.length ≤ 32) :
    5 ≤ (interactionSim is5G vd targetSSID rng env cnt).1.length ∧
    (interactionSim is5G vd targetSSID rng env cnt).1.length ≤ 13 ∧
    ((interactionSim is5G vd targetSSID rng env cnt).1.getD 0 [])[0]? = some 0xB0 ∧
    ((interactionSim is5G vd targetSSID rng env cnt).1.getD 1 [])[0]? = some 0x00 ∧
    (48, RSN_PAYLOAD) ∈
      scanIEs (((interactionSim is5G vd targetSSID rng env cnt).1.getD 1 []).drop 28) ∧
    (∀ j, 2 ≤ j → j < (interactionSim is5G vd targetSSID rng env cnt).1.length →
      ((interactionSim is5G vd targetSSID rng env cnt).1.getD j []).take 2 =
        [0x88, 0x41]) ∧
    (∀ j, j < (interactionSim is5G vd targetSSID rng env cnt).1.length →
      ((interactionSim is5G vd targetSSID rng env cnt).1.getD j [])[22]? =
        some (((vd.sequenceNumber + j) % 4096) &&& 0xFF)) ∧
    (interactionSim is5G vd targetSSID rng env cnt).2.1.sequenceNumber =
      (vd.sequenceNumber +
        (interactionSim is5G vd targetSSID rng env cnt).1.length) % 4096 ∧
    (interactionSim is5G vd targetSSID rng env cnt).2.2.2 = cnt + 1 := by
  rcases vd with ⟨mac, bss, seq, pidx, gen, plat, hc, tx⟩
  obtain ⟨hmac, hbssid⟩ := hwf
  have hseq' : seq < 4096 := hseq
  simp only at hmac hbssid
  simp only [interactionSim]
  rcases h1 : Rng.nextRange rng (10 * 75 / 100) (40 * 50 / 100) with ⟨d1, rng1⟩
  simp only [h1]
  rcases h2 : fillSilence is5G (env 0) rng1 with ⟨np1, rng2⟩
  simp only [h2]
  rcases h3 : Rng.nextRange rng2 (30 * 75 / 100) (100 * 50 / 100) with ⟨d2, rng3⟩
  simp only [h3]
  rcases h4 : fillSilence is5G (env 1) rng3 with ⟨np2, rng4⟩
  simp only [h4]
  rcases h5 : Rng.nextRange rng4 3 12 with ⟨bc, rng5⟩
  simp only [h5]
  have hbc : 3 ≤ bc ∧ bc ≤ 11 := by
    rw [Rng.nextRange] at h5
    injection h5 with ha hb
    have := Nat.mod_lt (rng4.stream rng4.idx) (show 0 < 12 - 3 by norm_num)
    omega
  set vd2 : VirtualDevice :=
    ⟨mac, bss, ((seq + 1) % 4096 + 1) % 4096, pidx, gen, plat, true, tx⟩ with hvd2
  have hs2 : vd2.sequenceNumber = (seq + 2) % 4096 := by
    show ((seq + 1) % 4096 + 1) % 4096 = (seq + 2) % 4096
    omega
  rcases h6 : dataBurst is5G bc vd2 rng5 env 2 with ⟨pkts, vdf, rngf⟩
  simp only [h6]
  have hd := dataBurst_spec is5G bc vd2 rng5 env 2 ⟨hmac, hbssid⟩
    (by rw [hs2]; exact Nat.mod_lt _ (by norm_num))
  rw [h6] at hd
  obtain ⟨hlen, hfin, hframes⟩ := hd
  have key : ∀ j, ((seq + 2) % 4096 + j) % 4096 = (seq + (j + 2)) % 4096 := by
    intro j; omega
  have hauth := buildAuthPacket_bytes ⟨mac, bss, seq, pidx, gen, plat, true, tx⟩
    ⟨hmac, hbssid⟩
  have hassoc := buildAssocRequestPacket_bytes is5G
    ⟨mac, bss, (seq + 1) % 4096, pidx, gen, plat, true, tx⟩ targetSSID ⟨hmac, hbssid⟩
  have hscan := buildAssocRequestPacket_scan is5G
    ⟨mac, bss, (seq + 1) % 4096, pidx, gen, plat, true, tx⟩ targetSSID ⟨hmac, hbssid⟩ hts
  refine ⟨?_, ?_, ?_, ?_, ?_, ?_, ?_, ?_, ?_⟩
  · simp only [List.length_cons, hlen]; omega
  · simp only [List.length_cons, hlen]; omega
  · rw [List.getD_cons_zero]; exact hauth.1
  · rw [List.getD_cons_succ, List.getD_cons_zero]; exact hassoc.1
  · rw [List.getD_cons_succ, List.getD_cons_zero, hscan]; simp
  · intro j h2 hlt
    obtain ⟨j', rfl⟩ : ∃ j', j = j' + 2 := ⟨j - 2, by omega⟩
    rw [List.getD_cons_succ, List.getD_cons_succ]
    have hj' : j' < bc := by
      simp only [List.length_cons, hlen] at hlt; omega
    exact (hframes j' hj').2
  · intro j hlt
    match j with
    | 0 =>
      rw [List.getD_cons_zero]
      have h0 := hauth.2
      simpa [Nat.mod_eq_of_lt hseq'] using h0
    | 1 =>
      rw [List.getD_cons_succ, List.getD_cons_zero]
      exact hassoc.2
    | (j' + 2) =>
      rw [List.getD_cons_succ, List.getD_cons_succ]
      have hj' : j' < bc := by
        simp only [List.length_cons, hlen] at hlt; omega
      have h := (hframes j' hj').1
      rw [hs2, key j'] at h
      exact h
  · rw [hfin, hs2, Nat.mod_add_mod]
    simp only [List.length_cons, hlen]
    congr 1
    omega
  · trivial

/-- Witness for C5: the interaction simulation at a concrete Common device,
SSID "home", all-zero PRNG and zero-length noise windows. -/
theorem interaction_sim_spec_witness :
    5 ≤ (interactionSim false exCommonDevice [104, 111, 109, 101] exRng (fun _ => 0) 0).1.length ∧
    (interactionSim false exCommonDevice [104, 111, 109, 101] exRng (fun _ => 0) 0).1.length ≤ 13 ∧
    ((interactionSim false exCommonDevice [104, 111, 109, 101] exRng (fun _ => 0) 0).1.getD 0 [])[0]? = some 0xB0 ∧
    ((interactionSim false exCommonDevice [104, 111, 109, 101] exRng (fun _ => 0) 0).1.getD 1 [])[0]? = some 0x00 ∧
    (48, RSN_PAYLOAD) ∈
      scanIEs (((interactionSim false exCommonDevice [104, 111, 109, 101] exRng (fun _ => 0) 0).1.getD 1 []).drop 28) ∧
    (∀ j, 2 ≤ j →
      j < (interactionSim false exCommonDevice [104, 111, 109, 101] exRng (fun _ => 0) 0).1.length →
      ((interactionSim false exCommonDevice [104, 111, 109, 101] exRng (fun _ => 0) 0).1.getD j []).take 2 =
        [0x88, 0x41]) ∧
    (∀ j, j < (interactionSim false exCommonDevice [104, 111, 109, 101] exRng (fun _ => 0) 0).1.length →
      ((interactionSim false exCommonDevice [104, 111, 109, 101] exRng (fun _ => 0) 0).1.getD j [])[22]? =
        some (((exCommonDevice.sequenceNumber + j) % 4096) &&& 0xFF)) ∧
    (interactionSim false exCommonDevice [104, 111, 109, 101] exRng (fun _ => 0) 0).2.1.sequenceNumber =
      (exCommonDevice.sequenceNumber +
        (interactionSim false exCommonDevice [104, 111, 109, 101] exRng (fun _ => 0) 0).1.length) % 4096 ∧
    (interactionSim false exCommonDevice [104, 111, 109, 101] exRng (fun _ => 0) 0).2.2.2 = 0 + 1 :=
  interaction_sim_spec false exCommonDevice [104, 111, 109, 101] exRng (fun _ => 0) 0
    (by decide) (by decide) (by decide)

-- --- CLAIM C8 ---

theorem meshListen_detected (localMac : List Nat) (now : Nat) :
    ∀ (pkts : List (List Nat)) (st : MeshState),
    (meshListen localMac now st pkts).isMeshDetected = true →
    st.isMeshDetected = true ∨ ∃ mp ∈ pkts, meshPacketAccepted localMac mp = true := by
  intro pkts
  induction pkts with
  | nil => intro st h; exact Or.inl h
  | cons mp rest ih =>
    intro st h
    rcases ih (processMeshPacket localMac now st mp) h with hd | ⟨mp', hmem, hacc'⟩
    · by_cases hacc : meshPacketAccepted localMac mp = true
      · exact Or.inr ⟨mp, by simp, hacc⟩
      · left
        simp only [meshPacketAccepted, decide_eq_true_eq, Decidable.not_not] at hacc
        unfold processMeshPacket at hd
        rw [if_pos hacc] at hd
        exact hd
    · exact Or.inr ⟨mp', by simp [hmem], hacc'⟩

/-- C8: in any scheduler iteration where `mesh_detected` holds and the time
since the last accepted mesh packet exceeds `MESH_DECAY_TIMEOUT_MS`
(600000 ms), the decay step clears `mesh_detected` and empties the
MeshCache; after such an iteration `mesh_detected` can only be true again if
some packet not filtered as a self-echo was accepted during the iteration's
listen window. -/
theorem mesh_decay_clears_state (localMac : List Nat) (now : Nat)
    (pkts : List (List Nat)) (st : MeshState)
    (hdet : st.isMeshDetected = true)
    (htime : now - st.lastMeshPacketTime > MESH_DECAY_TIMEOUT_MS) :
    MESH_DECAY_TIMEOUT_MS = 600000 ∧
    (meshDecayStep true now st).isMeshDetected = false ∧
    (meshDecayStep true now st).meshCache = [] ∧
    ((meshIterStep true localMac now pkts st).isMeshDetected = true →
      ∃ mp ∈ pkts, meshPacketAccepted localMac mp = true) := by
  have hcond : (true : Bool) = true ∧ st.isMeshDetected = true ∧
      now - st.lastMeshPacketTime > MESH_DECAY_TIMEOUT_MS := ⟨rfl, hdet, htime⟩
  have h1 : (meshDecayStep true now st).isMeshDetected = false := by
    unfold meshDecayStep
    rw [if_pos hcond]
  have h2 : (meshDecayStep true now st).meshCache = [] := by
    unfold meshDecayStep
    rw [if_pos hcond]
  refine ⟨rfl, h1, h2, ?_⟩
  intro hpost
  unfold meshIterStep at hpost
  simp only [h1, if_true, Bool.false_eq_true, if_false] at hpost
  by_cases htick : now - (meshDecayStep true now st).lastMeshCheckTime >
      MESH_STANDBY_INTERVAL_MS
  · rw [if_pos htick] at hpost
    simp only at hpost
    rcases meshListen_detected localMac now pkts (meshDecayStep true now st) hpost with
      hcontra | hok
    · rw [h1] at hcontra; cases hcontra
    · exact hok
  · rw [if_neg htick] at hpost
    rw [h1] at hpost; cases hpost

/-- A concrete decayed mesh state (last packet at t=0). -/
def exMeshState : MeshState := ⟨true, [([1, 2, 3], 0)], [], 0, 0⟩

/-- Witness for C8: a detected state whose last mesh packet is 700 s old
decays to undetected with an empty cache. -/
theorem mesh_decay_clears_state_witness :
    MESH_DECAY_TIMEOUT_MS = 600000 ∧
    (meshDecayStep true 700000 exMeshState).isMeshDetected = false ∧
    (meshDecayStep true 700000 exMeshState).meshCache = [] ∧
    ((meshIterStep true [9, 9, 9, 9, 9, 9] 700000 [] exMeshState).isMeshDetected = true →
      ∃ mp ∈ ([] : List (List Nat)), meshPacketAccepted [9, 9, 9, 9, 9, 9] mp = true) :=
  mesh_decay_clears_state [9, 9, 9, 9, 9, 9] 700000 [] exMeshState (by decide) (by decide)

-- --- CLAIM C7 ---

/-- A valid management probe-request frame whose SSID element (at offset 24)
has length 1 (`"A"`). -/
def exSniffFrame : List Nat :=
  [0x40, 0x00, 0x00, 0x00,
   0xFF, 0xFF, 0xFF, 0xFF, 0xFF, 0xFF,
   1, 2, 3, 4, 5, 6,
   0xFF, 0xFF, 0xFF, 0xFF, 0xFF, 0xFF,
   0x00, 0x00,
   0x00, 1, 65]

/-- C7 counterexample: a sniffed probe-request SSID of length 1 — which the
claim says is accepted — is rejected (never enqueued) by the sniffer. -/
theorem sniffer_rejects_length_one :
    exSniffFrame.getD 0 0 = 0x40 ∧ exSniffFrame.getD 24 0 = 0x00 ∧
    exSniffFrame.getD 25 0 = 1 ∧
    snifferCallback true true exSniffFrame = none := by decide

/-- C7 amended: for every management frame reaching the probe-learning
sniffer, an SSID whose length byte is 0, 1, 32 or more is silently rejected,
and every SSID of length 2 through 31 is accepted for enqueue. -/
theorem sniffer_ssid_length_filter (frame : List Nat)
    (hm : frame.getD 0 0 = 0x40) (ht : frame.getD 24 0 = 0x00) :
    ((1 < frame.getD 25 0 ∧ frame.getD 25 0 < 32) →
      snifferCallback true true frame =
        some ((frame.drop 26).take (frame.getD 25 0))) ∧
    ((frame.getD 25 0 ≤ 1 ∨ 32 ≤ frame.getD 25 0) →
      snifferCallback true true frame = none) := by
  simp only [List.getD_eq_getElem?_getD] at hm ht ⊢
  constructor
  · intro hlen
    simp [snifferCallback, hm, ht, hlen]
  · intro hlen
    have hnot : ¬(1 < frame[25]?.getD 0 ∧ frame[25]?.getD 0 < 32) := by omega
    simp [snifferCallback, hm, ht, hnot]

/-- Witness for the amended C7 at the concrete length-1 frame. -/
theorem sniffer_ssid_length_filter_witness :
    ((1 < exSniffFrame.getD 25 0 ∧ exSniffFrame.getD 25 0 < 32) →
      snifferCallback true true exSniffFrame =
        some ((exSniffFrame.drop 26).take (exSniffFrame.getD 25 0))) ∧
    ((exSniffFrame.getD 25 0 ≤ 1 ∨ 32 ≤ exSniffFrame.getD 25 0) →
      snifferCallback true true exSniffFrame = none) :=
  sniffer_ssid_length_filter exSniffFrame (by decide) (by decide)

-- --- CLAIM C6 ---

/-- A concrete governor state with empty pools. -/
def exGovState : GovState := ⟨false, [], []⟩

/-- C6 counterexample: with free heap 20000 — inside `[15000, 25000)`, where
the claim says learned SSIDs keep being accepted — the governor tick sets
the low-memory flag and a fresh SSID offered afterwards is NOT added to the
store. -/
theorem governor_rejects_ssid_at_20000 :
    (manageResources 20000 exGovState).lowMemoryMode = true ∧
    [120] ∉ exStore ∧
    (offerSSID true (manageResources 20000 exGovState).lowMemoryMode exStore
        [120] 1000 0 exRng).1 = exStore := by decide

/-- C6 amended: on a governor tick with free heap below 25000 the low-memory
flag is set and 30% of the dormant pool is dropped from the front; below
15000 additionally 15% of the active pool is dropped from the front; at or
above 25000 the flag is cleared.  New learned SSIDs are rejected whenever
the low-memory flag is set — that is, for every free-heap value below 25000,
not only below 15000. -/
theorem governor_spec (freeHeap : Nat) (st : GovState) (ssids : List (List Nat))
    (newSSID : List Nat) (now lastLearn : Nat) (rng : Rng) :
    (freeHeap < 25000 →
      (manageResources freeHeap st).lowMemoryMode = true ∧
      (manageResources freeHeap st).dormantSwarm =
        st.dormantSwarm.drop (st.dormantSwarm.length * 30 / 100) ∧
      (freeHeap < 15000 →
        (manageResources freeHeap st).activeSwarm =
          st.activeSwarm.drop (st.activeSwarm.length * 15 / 100)) ∧
      (15000 ≤ freeHeap →
        (manageResources freeHeap st).activeSwarm = st.activeSwarm) ∧
      (offerSSID true (manageResources freeHeap st).lowMemoryMode ssids newSSID
          now lastLearn rng).1 = ssids) ∧
    (25000 ≤ freeHeap → (manageResources freeHeap st).lowMemoryMode = false) := by
  constructor
  · intro h25
    have hflag : (manageResources freeHeap st).lowMemoryMode = true := by
      simp only [manageResources]
      rw [if_pos h25]
      split_ifs <;> rfl
    refine ⟨hflag, ?_, ?_, ?_, ?_⟩
    · simp only [manageResources]
      rw [if_pos h25]
      split_ifs <;> simp_all
    · intro h15
      simp only [manageResources]
      rw [if_pos h25]
      split_ifs <;> simp_all
    · intro h15
      simp only [manageResources]
      rw [if_pos h25]
      split_ifs <;> simp_all <;> omega
    · rw [hflag]
      simp [offerSSID]
  · intro h25
    simp only [manageResources]
    rw [if_neg (by omega)]

/-- Witness for the amended C6 at free heap 20000. -/
theorem governor_spec_witness :
    (manageResources 20000 exGovState).lowMemoryMode = true ∧
    (manageResources 20000 exGovState).dormantSwarm =
      exGovState.dormantSwarm.drop (exGovState.dormantSwarm.length * 30 / 100) ∧
    (20000 < 15000 →
      (manageResources 20000 exGovState).activeSwarm =
        exGovState.activeSwarm.drop (exGovState.activeSwarm.length * 15 / 100)) ∧
    (15000 ≤ 20000 →
      (manageResources 20000 exGovState).activeSwarm = exGovState.activeSwarm) ∧
    (offerSSID true (manageResources 20000 exGovState).lowMemoryMode exStore [120]
        1000 0 exRng).1 = exStore :=
  (governor_spec 20000 exGovState exStore [120] 1000 0 exRng).1 (by decide)

end GhostWalk
